import Mathlib

/-!
Verification of the athlete/coach health-tracking backend
(user registration, authentication, token refresh, and the
professional/athlete ownership model over measurement, report and
patient records).

The JavaScript source is shallowly embedded:
* Mongoose documents become Lean structures whose fields follow the
  schema files (src/models/*.js); ObjectIds are strings, JS numbers are
  rationals, dates are natural-number timestamps.
* MongoDB query objects become either record-typed filters or, for the
  anthropometric routes, explicit lists of (path, value) equality
  conditions matched against the document's schema paths — a condition
  on a path the schema does not define matches no document, exactly as
  in MongoDB for documents saved under a strict schema.
* Express handlers become total functions from request data and the
  current collections to a response (and the updated collections).
* External collaborators (the JWT library, bcrypt, the e-mail format
  validator) are modelled at their interface: a signed token records
  the claims, the signing secret and the expiry instant; hashing is the
  identity; the e-mail format check only demands an "@".
-/

namespace Backend

/-- Role tag stored in every user document; the schema restricts it to
the two enum values (src/models/User via Athlete.js lines 57-61). -/
inductive Role where
  | athlete
  | professional
deriving DecidableEq, Repr

/-- String form of a role, as persisted by the discriminator key. -/
def roleStr : Role → String
  | .athlete => "athlete"
  | .professional => "professional"

/-- Authenticated request identity (req.user) as attached by the auth
middleware: the user's id and role. -/
structure UserCtx where
  id : String
  role : Role
deriving DecidableEq, Repr

/-- One field/message pair of a validation-error response body. -/
structure Detail where
  field : String
  message : String
deriving DecidableEq, Repr

/-! ## Token service (src/routes/auth.js) -/

/-- Claim set carried by a JWT: always a userId, and a role claim only
when the signer includes it. -/
structure TokenClaims where
  userId : String
  role : Option String := none
deriving DecidableEq, Repr

/-- A signed token as the JWT library's interface exposes it: the claim
set, the secret that produced the signature, and the issue/expiry
instants (seconds). Tampering with the claims or signing with another
secret is modelled by a token whose recorded secret differs from the
verifier's secret. -/
structure SignedToken where
  claims : TokenClaims
  secret : String
  iat : Nat
  exp : Nat
deriving DecidableEq, Repr

/-- jwt.sign(claims, secret, expiresIn): expiry is issuance plus the
lifetime in seconds. -/
def jwtSign (c : TokenClaims) (secret : String) (now lifetime : Nat) : SignedToken :=
  { claims := c, secret := secret, iat := now, exp := now + lifetime }

/-- Result of jwt.verify: the decoded claims, or a thrown error. -/
inductive VerifyResult where
  | ok (claims : TokenClaims)
  | invalid
deriving DecidableEq, Repr

/-- jwt.verify(token, secret): fails on a signature/secret mismatch or
once the expiry instant has been reached. -/
def jwtVerify (t : SignedToken) (secret : String) (now : Nat) : VerifyResult :=
  if t.secret = secret ∧ now < t.exp then .ok t.claims else .invalid

/-- Seconds in the access-token lifetime, jwt expiresIn: '1h'. -/
def accessLifetime : Nat := 3600

/-- Seconds in the refresh-token lifetime, jwt expiresIn: '7d'. -/
def refreshLifetime : Nat := 604800

/-! ## Credential store -/

/-- A stored user document (User base schema plus the athlete and
professional discriminator payloads; absent variant fields are none). -/
structure StoredUser where
  id : String
  name : String
  email : String
  password : String
  role : Role
  gender : Option String := none
  age : Option Int := none
  country : Option String := none
  sport : Option String := none
  position : Option String := none
  professionalId : Option String := none
  specialization : Option String := none
  licenseNumber : Option String := none
  yearsOfExperience : Option Int := none
  isActive : Bool := true
deriving DecidableEq, Repr

/-- Lower-casing of a string, character by character (the schema's
lowercase option on email and the i-flag of query regexes). -/
def lowerStr (s : String) : String := String.mk (s.toList.map Char.toLower)

/-- ASCII whitespace, as stripped by the trim sanitizer. -/
def isWspChar (c : Char) : Bool :=
  c == ' ' || c == '\t' || c == '\n' || c == '\r'

/-- Leading/trailing-whitespace removal (the .trim() sanitizer of the
validator chains and the trim schema option). -/
def trimStr (s : String) : String :=
  String.mk (((s.toList.dropWhile isWspChar).reverse.dropWhile isWspChar).reverse)

/-- bcrypt hashing, modelled at the interface as the identity (the
hashing library is an external collaborator). -/
def bcryptHash (s : String) : String := s

/-- user.comparePassword(candidate) via bcrypt.compare. -/
def bcryptMatches (stored candidate : String) : Bool := stored == bcryptHash candidate

/-- User.findOne on the email field. -/
def findByEmail (db : List StoredUser) (email : String) : Option StoredUser :=
  db.find? (fun u => u.email == email)

/-- User.findById. -/
def findById (db : List StoredUser) (uid : String) : Option StoredUser :=
  db.find? (fun u => u.id == uid)

/-! ## Login (POST /auth/login, auth.js lines 171-222) -/

/-- Response of the login handler. -/
inductive LoginResponse where
  | ok (u : StoredUser) (tok refreshTok : SignedToken)
  | invalidCredentials
deriving DecidableEq, Repr

/-- POST /auth/login: find the user by email, compare the password, and
on success sign the pair of tokens. The access token is signed over
the claim set written at auth.js line 206 and the refresh token over
the claim set at line 207. -/
def loginHandler (db : List StoredUser) (email password : String)
    (accessSecret refreshSecret : String) (now : Nat) : LoginResponse :=
  match findByEmail db email with
  | none => .invalidCredentials
  | some u =>
    if bcryptMatches u.password password then
      .ok u (jwtSign { userId := u.id } accessSecret now accessLifetime)
            (jwtSign { userId := u.id } refreshSecret now refreshLifetime)
    else .invalidCredentials

/-! ## Refresh (POST /auth/refresh, auth.js lines 225-265) -/

/-- Response of the refresh handler. -/
inductive RefreshResponse where
  | ok (tok refreshTok : SignedToken)
  | invalidToken
deriving DecidableEq, Repr

/-- POST /auth/refresh: verify the refresh token against the refresh
secret (any verification failure is caught and mapped to 401
INVALID_TOKEN), look up the referenced user, and issue a fresh pair.
Nothing is stored or invalidated: the handler keeps no token state. -/
def refreshHandler (db : List StoredUser) (tok : SignedToken)
    (accessSecret refreshSecret : String) (now : Nat) : RefreshResponse :=
  match jwtVerify tok refreshSecret now with
  | .invalid => .invalidToken
  | .ok claims =>
    match findById db claims.userId with
    | none => .invalidToken
    | some u =>
      .ok (jwtSign { userId := u.id } accessSecret now accessLifetime)
          (jwtSign { userId := u.id } refreshSecret now refreshLifetime)

/-- Example professional user for concrete instances. -/
def exPro : StoredUser :=
  { id := "aaaaaaaaaaaaaaaaaaaaaaaa", name := "Pat", email := "pat@example.com",
    password := "password1", role := .professional,
    specialization := some "nutrition", licenseNumber := some "L1",
    yearsOfExperience := some 4 }

/-! ## Registration (POST /auth/register, auth.js lines 11-168) -/

/-- Request body of POST /auth/register; a field the client did not
send is the empty string / none (express-validator sees undefined). -/
structure RegisterPayload where
  name : String := ""
  email : String := ""
  password : String := ""
  role : String := ""
  gender : Option String := none
  age : Option Int := none
  country : Option String := none
  sport : Option String := none
  position : Option String := none
  professionalId : Option String := none
  specialization : Option String := none
  licenseNumber : Option String := none
  yearsOfExperience : Option Int := none
deriving DecidableEq, Repr

/-- Modelled interface of the external isEmail validator: the check
demanded here is only that an "@" occurs. -/
def isEmailFormat (s : String) : Bool := s.toList.contains '@'

/-- Hexadecimal digit as matched by the [0-9a-fA-F] character class. -/
def isHexDigitChar (c : Char) : Bool :=
  c.isDigit || ('a' ≤ c && c ≤ 'f') || ('A' ≤ c && c ≤ 'F')

/-- The ObjectId regex of auth.js line 39: exactly 24 hex characters. -/
def isObjectIdFormat (s : String) : Bool :=
  s.length == 24 && s.toList.all isHexDigitChar

/-- User.findOne({_id: v, role: 'professional'}) of the professionalId
custom validator (auth.js lines 43-46). -/
def findProfessionalById (db : List StoredUser) (v : String) : Option StoredUser :=
  db.find? (fun u => u.id == v && roleStr u.role == "professional")

/-- check('name').trim().notEmpty(). -/
def regNameErrs (p : RegisterPayload) : List Detail :=
  if trimStr p.name == "" then [⟨"name", "Name is required"⟩] else []

/-- check('email').isEmail(). -/
def regEmailErrs (p : RegisterPayload) : List Detail :=
  if !(isEmailFormat p.email) then [⟨"email", "Please enter a valid email"⟩] else []

/-- check('password').isLength(min 8). -/
def regPasswordErrs (p : RegisterPayload) : List Detail :=
  if p.password.length < 8 then
    [⟨"password", "Password must be at least 8 characters long"⟩]
  else []

/-- check('role').isIn(['athlete', 'professional']). -/
def regRoleErrs (p : RegisterPayload) : List Detail :=
  if !(p.role == "athlete" || p.role == "professional") then
    [⟨"role", "Role must be either athlete or professional"⟩]
  else []

/-- check('gender').if(role athlete).isIn(['male','female','other']). -/
def regGenderErrs (p : RegisterPayload) : List Detail :=
  if p.role == "athlete" then
    match p.gender with
    | some g => if g == "male" || g == "female" || g == "other" then [] else
        [⟨"gender", "Invalid gender"⟩]
    | none => [⟨"gender", "Invalid gender"⟩]
  else []

/-- check('age').if(role athlete).isInt(min 0). -/
def regAgeErrs (p : RegisterPayload) : List Detail :=
  if p.role == "athlete" then
    match p.age with
    | some a => if 0 ≤ a then [] else [⟨"age", "Age must be a positive integer"⟩]
    | none => [⟨"age", "Age must be a positive integer"⟩]
  else []

/-- check('country').if(role athlete).trim().notEmpty(). -/
def regCountryErrs (p : RegisterPayload) : List Detail :=
  if p.role == "athlete" then
    match p.country with
    | some c => if trimStr c == "" then [⟨"country", "Country is required"⟩] else []
    | none => [⟨"country", "Country is required"⟩]
  else []

/-- The two professionalId validators on the trimmed value: notEmpty,
then the custom one (ObjectId regex, then existence of a stored user
with role 'professional' under that id). Both record their error when
they fail, as express-validator accumulates per-chain failures. -/
def pidChecks (db : List StoredUser) (v : Option String) : List Detail :=
  (if trimStr (v.getD "") == "" then
     [⟨"professionalId", "Professional ID is required"⟩]
   else [])
  ++ (if !(isObjectIdFormat (trimStr (v.getD ""))) then
        [⟨"professionalId", "Professional ID must be a valid MongoDB ObjectId"⟩]
      else
        match findProfessionalById db (trimStr (v.getD "")) with
        | some _ => []
        | none => [⟨"professionalId", "Professional not found"⟩])

/-- check('professionalId').if(role athlete)... (auth.js lines 33-51). -/
def regProfessionalIdErrs (db : List StoredUser) (p : RegisterPayload) : List Detail :=
  if p.role == "athlete" then pidChecks db p.professionalId else []

/-- check('specialization').if(role professional).trim().notEmpty(). -/
def regSpecializationErrs (p : RegisterPayload) : List Detail :=
  if p.role == "professional" then
    match p.specialization with
    | some s => if trimStr s == "" then [⟨"specialization", "Specialization is required"⟩] else []
    | none => [⟨"specialization", "Specialization is required"⟩]
  else []

/-- check('licenseNumber').if(role professional).trim().notEmpty(). -/
def regLicenseErrs (p : RegisterPayload) : List Detail :=
  if p.role == "professional" then
    match p.licenseNumber with
    | some s => if trimStr s == "" then [⟨"licenseNumber", "License number is required"⟩] else []
    | none => [⟨"licenseNumber", "License number is required"⟩]
  else []

/-- check('yearsOfExperience').if(role professional).isInt(min 0). -/
def regExperienceErrs (p : RegisterPayload) : List Detail :=
  if p.role == "professional" then
    match p.yearsOfExperience with
    | some a => if 0 ≤ a then [] else
        [⟨"yearsOfExperience", "Years of experience must be a positive integer"⟩]
    | none => [⟨"yearsOfExperience", "Years of experience must be a positive integer"⟩]
  else []

/-- validationResult(req) of the register route: the accumulated
{field, message} pairs of the eleven validator chains, in source
order. -/
def registerValidationErrors (db : List StoredUser) (p : RegisterPayload) : List Detail :=
  regNameErrs p ++ regEmailErrs p ++ regPasswordErrs p ++ regRoleErrs p
    ++ regGenderErrs p ++ regAgeErrs p ++ regCountryErrs p
    ++ regProfessionalIdErrs db p
    ++ regSpecializationErrs p ++ regLicenseErrs p ++ regExperienceErrs p

/-- The new Athlete(...) / new Professional(...) document built at
auth.js lines 98-121 (role was already validated to be one of the two
enum values). -/
def buildRegisteredUser (newId : String) (p : RegisterPayload) : StoredUser :=
  if p.role == "athlete" then
    { id := newId, name := p.name, email := p.email, password := p.password,
      role := .athlete, gender := p.gender, age := p.age, country := p.country,
      sport := p.sport, position := p.position, professionalId := p.professionalId }
  else
    { id := newId, name := p.name, email := p.email, password := p.password,
      role := .professional, specialization := p.specialization,
      licenseNumber := p.licenseNumber, yearsOfExperience := p.yearsOfExperience }

/-- Mongoose validation of the User schema on save: required base
fields, password minlength 8, and the fields the schema requires
conditionally on role 'athlete' (Athlete.js lines 39-128). -/
def userSchemaErrors (u : StoredUser) : List Detail :=
  (if trimStr u.name == "" then [⟨"name", "name is required"⟩] else [])
  ++ (if u.email == "" then [⟨"email", "email is required"⟩] else [])
  ++ (if u.password == "" then [⟨"password", "password is required"⟩]
      else if u.password.length < 8 then
        [⟨"password", "password is shorter than the minimum allowed length (8)"⟩]
      else [])
  ++ (if u.role = Role.athlete then
        (match u.gender with
         | some g => if g == "male" || g == "female" || g == "other" then [] else
             [⟨"gender", "gender is not a valid enum value"⟩]
         | none => [⟨"gender", "gender is required"⟩])
        ++ (match u.age with
            | some a => if 0 ≤ a then [] else [⟨"age", "age is less than minimum"⟩]
            | none => [⟨"age", "age is required"⟩])
        ++ (match u.country with
            | some c => if c == "" then [⟨"country", "country is required"⟩] else []
            | none => [⟨"country", "country is required"⟩])
        ++ (match u.professionalId with
            | some _ => []
            | none => [⟨"professionalId", "professionalId is required"⟩])
      else [])

/-- document.save() for a user: run schema validation, then the
pre-save hook (lowercase the email per the schema, hash the password);
a failed validation throws a ValidationError carrying the per-field
errors. -/
def userSave (u : StoredUser) : Except (List Detail) StoredUser :=
  match userSchemaErrors u with
  | [] => .ok { u with email := lowerStr u.email, password := bcryptHash u.password }
  | ds => .error ds

/-- Response of the register handler: 201 with the user and token pair,
a 400 for route validation / duplicate email, a 400 carrying the
unpacked ValidationError details (auth.js lines 150-160), or the
generic 500. -/
inductive RegisterResponse where
  | created (u : StoredUser) (tok refreshTok : SignedToken)
  | validationFailed (details : List Detail)
  | emailInUse
  | dbValidationFailed (details : List Detail)
deriving DecidableEq, Repr

/-- POST /auth/register: route validation, duplicate-email check,
document construction and save, token issuance (the register access
token does carry a role claim, auth.js line 127); the catch block maps
a Mongoose ValidationError to a 400 with {field, message} details. -/
def registerHandler (db : List StoredUser) (newId : String) (p : RegisterPayload)
    (aSec rSec : String) (now : Nat) : RegisterResponse × List StoredUser :=
  let errs := registerValidationErrors db p
  if errs.isEmpty then
    match findByEmail db p.email with
    | some _ => (.emailInUse, db)
    | none =>
      match userSave (buildRegisteredUser newId p) with
      | .error ds => (.dbValidationFailed ds, db)
      | .ok u =>
        (.created u
          (jwtSign { userId := u.id, role := some (roleStr u.role) } aSec now accessLifetime)
          (jwtSign { userId := u.id } rSec now refreshLifetime),
         db ++ [u])
  else (.validationFailed errs, db)

/-! ## Patient creation (POST /users/patients, integration.js 514-580) -/

/-- Request body of POST /users/patients. -/
structure PatientPayload where
  name : String := ""
  email : String := ""
  password : String := ""
  gender : Option String := none
  age : Option Int := none
  country : Option String := none
  sport : Option String := none
  position : Option String := none
deriving DecidableEq, Repr

/-- Route validators of POST /users/patients (password minimum length
is 6 here, two short of the schema's 8). -/
def patientValidationErrors (p : PatientPayload) : List Detail :=
  (if trimStr p.name == "" then [⟨"name", "Name is required"⟩] else [])
  ++ (if !(isEmailFormat p.email) then [⟨"email", "Valid email is required"⟩] else [])
  ++ (if p.password.length < 6 then
        [⟨"password", "Password must be at least 6 characters"⟩]
      else [])
  ++ (match p.gender with
      | some g => if g == "male" || g == "female" || g == "other" then [] else
          [⟨"gender", "Valid gender is required"⟩]
      | none => [⟨"gender", "Valid gender is required"⟩])
  ++ (match p.age with
      | some a => if 0 ≤ a then [] else [⟨"age", "Age must be a positive number"⟩]
      | none => [⟨"age", "Age must be a positive number"⟩])
  ++ (match p.country with
      | some c => if trimStr c == "" then [⟨"country", "Country is required"⟩] else []
      | none => [⟨"country", "Country is required"⟩])

/-- The new User({...}) document that POST /users/patients builds
(integration.js lines 555-567): role 'athlete', owner the caller. -/
def builtPatient (caller : UserCtx) (newId : String) (p : PatientPayload) : StoredUser :=
  { id := newId, name := p.name, email := p.email, password := p.password,
    role := .athlete, gender := p.gender, age := p.age, country := p.country,
    sport := p.sport, position := p.position,
    professionalId := some caller.id, isActive := true }

/-- Response of the patient-creation handler: its catch block has no
ValidationError case, so every thrown error — a failed schema
validation included — becomes the generic 500. -/
inductive CreatePatientResponse where
  | created (u : StoredUser)
  | validationFailed (details : List Detail)
  | emailInUse
  | serverError
deriving DecidableEq, Repr

/-- POST /users/patients (caller already passed auth and
requireProfessional): route validation, duplicate-email check, then
new User({role 'athlete', professionalId caller, ...}).save(); any
throw lands in the generic catch. -/
def createPatientHandler (db : List StoredUser) (caller : UserCtx) (newId : String)
    (p : PatientPayload) : CreatePatientResponse × List StoredUser :=
  let errs := patientValidationErrors p
  if errs.isEmpty then
    match findByEmail db p.email with
    | some _ => (.emailInUse, db)
    | none =>
      match userSave (builtPatient caller newId p) with
      | .error _ => (.serverError, db)
      | .ok u => (.created u, db ++ [u])
  else (.validationFailed errs, db)

/-! ## Reports (src/models/Report in part_001, src/routes/reports.js) -/

/-- A report document. The Mixed content snapshot carries no scoping
field and no handler ever filters on it, so it is kept opaque here
(the schema's other fields are all present). -/
structure Report where
  id : String
  userId : String
  professionalId : String
  type : String
  format : String
  date : Nat := 0
  shared : Bool := false
  accessCode : Option String := none
deriving DecidableEq, Repr

/-- The reportSchema.pre('save') hook (part_001 lines 47-53): generate
an access code only when the report is shared and has none yet; rand
stands for the Math.random()-derived string of that save. -/
def reportPreSave (rand : String) (r : Report) : Report :=
  if r.shared && r.accessCode.isNone then { r with accessCode := some rand } else r

/-- Request body of POST /reports. -/
structure ReportPayload where
  userId : String := ""
  type : String := ""
  format : String := ""
  startDate : Option Nat := none
  endDate : Option Nat := none
  shared : Option Bool := none
deriving DecidableEq, Repr

/-- Route validators of POST /reports (userId isMongoId, type and
format isIn; dates are typed, the optional flags carry their types). -/
def reportPayloadValid (p : ReportPayload) : Bool :=
  isObjectIdFormat p.userId
  && (p.type == "individual" || p.type == "group")
  && (p.format == "pdf" || p.format == "excel")

/-- Response of POST /reports. -/
inductive CreateReportResponse where
  | created (r : Report)
  | validationFailed
  | notFound
deriving DecidableEq, Repr

/-- POST /reports: after validation, the ownership lookup is
User.findOne({_id: userId, role: 'user', professionalId: caller})
(reports.js lines 30-34) — note the role string 'user'. On success a
report is built from the body, pre-saved and appended. -/
def createReportHandler (db : List StoredUser) (reports : List Report)
    (caller : UserCtx) (newId : String) (p : ReportPayload) (now : Nat)
    (rand : String) : CreateReportResponse × List Report :=
  if reportPayloadValid p then
    match db.find? (fun u => u.id == p.userId && roleStr u.role == "user"
        && u.professionalId == some caller.id) with
    | none => (.notFound, reports)
    | some _ =>
      let r := reportPreSave rand
        { id := newId, userId := p.userId, professionalId := caller.id,
          type := p.type, format := p.format, date := now,
          shared := p.shared.getD false }
      (.created r, reports ++ [r])
  else (.validationFailed, reports)

/-- Report.findOne({_id, professionalId: caller}) of POST
/reports/:id/share. -/
def shareFind (reports : List Report) (callerId rid : String) : Option Report :=
  reports.find? (fun r => r.id == rid && r.professionalId == callerId)

/-- Response of POST /reports/:id/share. -/
inductive ShareResponse where
  | ok (r : Report)
  | notFound
deriving DecidableEq, Repr

/-- Replace the document with the given id by r2 (document.save() on a
fetched document writes it back under its _id). -/
def updateReportById (reports : List Report) (r2 : Report) : List Report :=
  reports.map (fun x => if x.id == r2.id then r2 else x)

/-- POST /reports/:id/share (reports.js lines 193-221): find the
caller's report, set shared to true, save (running the pre-save
hook). -/
def shareReportHandler (reports : List Report) (caller : UserCtx) (rid : String)
    (rand : String) : ShareResponse × List Report :=
  match shareFind reports caller.id rid with
  | none => (.notFound, reports)
  | some r =>
    let r2 := reportPreSave rand { r with shared := true }
    (.ok r2, updateReportById reports r2)

/-- GET /reports/shared/:accessCode (reports.js lines 224-249):
Report.findOne({accessCode, shared: true}); no authentication. -/
def getSharedReportHandler (reports : List Report) (code : String) : Option Report :=
  reports.find? (fun r => r.accessCode == some code && r.shared)

/-! ## Performance metrics (PerformanceMetrics schema in part_001,
routes in integration.js lines 129-365) -/

/-- A performance-metrics document. -/
structure PerfDoc where
  id : String
  userId : String
  professionalId : String
  date : Nat := 0
  vo2max : Option Rat := none
  power : Option Rat := none
  speed : Option Rat := none
  trainingLoad : Option Rat := none
  sport : Option String := none
  position : Option String := none
  notes : Option String := none
deriving DecidableEq, Repr

/-- An optional equality condition of a query object: absent means the
key was not put into the query. -/
def optEq (q : Option String) (v : String) : Bool :=
  match q with
  | none => true
  | some x => x == v

/-- The date range condition built from startDate/endDate. -/
def dateInRange (gte lte : Option Nat) (d : Nat) : Bool :=
  (gte.all (fun x => decide (x ≤ d))) && (lte.all (fun x => decide (d ≤ x)))

/-- Bool test for one character list occurring inside another. -/
def charsInfixOf (pat : List Char) : List Char → Bool
  | [] => pat.isEmpty
  | c :: cs => pat.isPrefixOf (c :: cs) || charsInfixOf pat cs

/-- The unanchored case-insensitive regex {$regex: pat, $options: 'i'}
as a substring test after lower-casing. -/
def ciSubstr (pat s : String) : Bool :=
  charsInfixOf (lowerStr pat).toList (lowerStr s).toList

/-- The query object of GET /performance as the handler builds it
(integration.js lines 202-223). -/
structure PerfQuery where
  professionalId : Option String := none
  userId : Option String := none
  dateGte : Option Nat := none
  dateLte : Option Nat := none
  sport : Option String := none
deriving Repr

/-- Matching a performance document against the query object; a sport
regex condition matches only documents that have a sport value. -/
def perfMatches (q : PerfQuery) (r : PerfDoc) : Bool :=
  optEq q.professionalId r.professionalId
  && optEq q.userId r.userId
  && dateInRange q.dateGte q.dateLte r.date
  && (match q.sport with
      | none => true
      | some pat =>
        match r.sport with
        | some s => ciSubstr pat s
        | none => false)

/-- Query built by GET /performance: a professional is scoped to their
own professionalId with an optional userId facet; anyone else is
scoped to their own userId (integration.js lines 206-213). -/
def perfListQuery (caller : UserCtx) (userIdParam : Option String)
    (sd ed : Option Nat) (sport : Option String) : PerfQuery :=
  if caller.role = Role.professional then
    { professionalId := some caller.id, userId := userIdParam,
      dateGte := sd, dateLte := ed, sport := sport }
  else
    { userId := some caller.id, dateGte := sd, dateLte := ed, sport := sport }

/-- skip((page - 1) * limit).limit(limit). -/
def paginate {α : Type} (page limit : Nat) (l : List α) : List α :=
  (l.drop ((page - 1) * limit)).take limit

/-- sort({date: -1}): stable sort by descending date. -/
def sortDateDesc {α : Type} (date : α → Nat) (l : List α) : List α :=
  l.mergeSort (fun a b => decide (date b ≤ date a))

/-- Math.ceil(total / limit) for a positive limit. -/
def pagesOf (total limit : Nat) : Nat := (total + limit - 1) / limit

/-- A paginated list response: data plus the pagination metadata. -/
structure Paged (α : Type) where
  data : List α
  total : Nat
  page : Nat
  limit : Nat
  pages : Nat
deriving Repr

/-- Assemble the list response from the already query-filtered records
(sort by descending date, skip/take, countDocuments on the same
query). -/
def listResponse {α : Type} (page limit : Nat) (date : α → Nat)
    (filtered : List α) : Paged α :=
  { data := paginate page limit (sortDateDesc date filtered),
    total := filtered.length, page := page, limit := limit,
    pages := pagesOf filtered.length limit }

/-- GET /performance (list). -/
def perfListHandler (caller : UserCtx) (userIdParam : Option String)
    (sd ed : Option Nat) (sport : Option String) (page limit : Nat)
    (db : List PerfDoc) : Paged PerfDoc :=
  listResponse page limit (fun r => r.date)
    (db.filter (perfMatches (perfListQuery caller userIdParam sd ed sport)))

/-- Response of a findOne-style handler. -/
inductive GetResponse (α : Type) where
  | ok (r : α)
  | notFound
deriving DecidableEq, Repr

/-- The findOne filter of GET /performance/:id: _id plus the caller's
branch field (integration.js lines 257-263). -/
def perfGetPred (caller : UserCtx) (rid : String) (r : PerfDoc) : Bool :=
  r.id == rid
  && (if caller.role = Role.professional then r.professionalId == caller.id
      else r.userId == caller.id)

/-- GET /performance/:id. -/
def perfGetHandler (caller : UserCtx) (rid : String) (db : List PerfDoc) :
    GetResponse PerfDoc :=
  match db.find? (perfGetPred caller rid) with
  | some r => .ok r
  | none => .notFound

/-- The findOne filter {_id, professionalId: caller} of the update and
delete performance routes. -/
def perfOwnedPred (caller : UserCtx) (rid : String) (r : PerfDoc) : Bool :=
  r.id == rid && r.professionalId == caller.id

/-- Body of PUT /performance/:id. -/
structure PerfUpdateBody where
  date : Option Nat := none
  vo2max : Option Rat := none
  power : Option Rat := none
  speed : Option Rat := none
  trainingLoad : Option Rat := none
  sport : Option String := none
  position : Option String := none
  notes : Option String := none
deriving DecidableEq, Repr

/-- Overwrite exactly the fields present in the body (the
Object.keys(req.body) merge loop). -/
def applyPerfUpdate (b : PerfUpdateBody) (r : PerfDoc) : PerfDoc :=
  { r with
    date := b.date.getD r.date,
    vo2max := match b.vo2max with | some v => some v | none => r.vo2max,
    power := match b.power with | some v => some v | none => r.power,
    speed := match b.speed with | some v => some v | none => r.speed,
    trainingLoad := match b.trainingLoad with | some v => some v | none => r.trainingLoad,
    sport := match b.sport with | some v => some v | none => r.sport,
    position := match b.position with | some v => some v | none => r.position,
    notes := match b.notes with | some v => some v | none => r.notes }

/-- Replace the performance document with the given id. -/
def updatePerfById (db : List PerfDoc) (r2 : PerfDoc) : List PerfDoc :=
  db.map (fun x => if x.id == r2.id then r2 else x)

/-- PUT /performance/:id: find the caller's record, merge the body,
save. -/
def perfUpdateHandler (caller : UserCtx) (rid : String) (b : PerfUpdateBody)
    (db : List PerfDoc) : GetResponse PerfDoc × List PerfDoc :=
  match db.find? (perfOwnedPred caller rid) with
  | none => (.notFound, db)
  | some r =>
    let r2 := applyPerfUpdate b r
    (.ok r2, updatePerfById db r2)

/-- DELETE /performance/:id via findOneAndDelete on the same owned
filter. -/
def perfDeleteHandler (caller : UserCtx) (rid : String) (db : List PerfDoc) :
    GetResponse PerfDoc × List PerfDoc :=
  match db.find? (perfOwnedPred caller rid) with
  | none => (.notFound, db)
  | some r => (.ok r, db.eraseP (perfOwnedPred caller rid))

/-! ## Anthropometric measurements (src/models/AnthropometricMeasurement.js,
routes in part_000) -/

/-- The skinfolds subdocument. -/
structure Skinfolds where
  triceps : Option Rat := none
  subscapular : Option Rat := none
  biceps : Option Rat := none
  iliac : Option Rat := none
  supraspinal : Option Rat := none
  abdominal : Option Rat := none
  thigh : Option Rat := none
  calf : Option Rat := none
deriving DecidableEq, Repr

/-- The perimeters subdocument. -/
structure Perimeters where
  arm : Option Rat := none
  forearm : Option Rat := none
  chest : Option Rat := none
  waist : Option Rat := none
  hip : Option Rat := none
  thigh : Option Rat := none
  calf : Option Rat := none
deriving DecidableEq, Repr

/-- An anthropometric-measurement document; the schema's ObjectId paths
are userId and professionalId — there is no athleteId path. -/
structure AnthroDoc where
  id : String
  userId : String
  professionalId : String
  date : Nat := 0
  weight : Rat
  height : Rat
  skinfolds : Skinfolds := {}
  perimeters : Perimeters := {}
  bodyFatPercentage : Option Rat := none
  leanMass : Option Rat := none
  notes : Option String := none
deriving DecidableEq, Repr

/-- The ObjectId-valued schema paths of a measurement document, as
MongoDB resolves a query key against a saved document: a key outside
the schema resolves to no value. -/
def AnthroDoc.fieldVal (m : AnthroDoc) : String → Option String
  | "_id" => some m.id
  | "userId" => some m.userId
  | "professionalId" => some m.professionalId
  | _ => none

/-- Matching the id-valued equality conditions of a query object
against a measurement document. -/
def anthroCondsMatch (conds : List (String × String)) (m : AnthroDoc) : Bool :=
  conds.all (fun c => m.fieldVal c.1 == some c.2)

/-- The query object of GET /measurements/anthropometric exactly as the
handler builds it (part_000 lines 78-93): a professional gets
professionalId plus an optional athleteId facet; anyone else gets
athleteId = own id. -/
def anthroListConds (caller : UserCtx) (athleteIdParam : Option String) :
    List (String × String) :=
  if caller.role = Role.professional then
    ("professionalId", caller.id) ::
      (match athleteIdParam with
       | some a => [("athleteId", a)]
       | none => [])
  else
    [("athleteId", caller.id)]

/-- Matching for the anthropometric list query: the id conditions plus
the date range. -/
def anthroListMatches (caller : UserCtx) (athleteIdParam : Option String)
    (sd ed : Option Nat) (m : AnthroDoc) : Bool :=
  anthroCondsMatch (anthroListConds caller athleteIdParam) m
    && dateInRange sd ed m.date

/-- GET /measurements/anthropometric (list). -/
def anthroListHandler (caller : UserCtx) (athleteIdParam : Option String)
    (sd ed : Option Nat) (page limit : Nat) (db : List AnthroDoc) :
    Paged AnthroDoc :=
  listResponse page limit (fun m => m.date)
    (db.filter (anthroListMatches caller athleteIdParam sd ed))

/-- The findOne conditions of GET /measurements/anthropometric/:id
(part_000 lines 127-133): _id plus professionalId for a professional,
athleteId for anyone else. -/
def anthroGetConds (caller : UserCtx) (rid : String) : List (String × String) :=
  ("_id", rid) ::
    (if caller.role = Role.professional then [("professionalId", caller.id)]
     else [("athleteId", caller.id)])

/-- GET /measurements/anthropometric/:id. -/
def anthroGetHandler (caller : UserCtx) (rid : String) (db : List AnthroDoc) :
    GetResponse AnthroDoc :=
  match db.find? (anthroCondsMatch (anthroGetConds caller rid)) with
  | some m => .ok m
  | none => .notFound

/-- The findOne filter {_id, professionalId: caller} of the update and
delete anthropometric routes. -/
def anthroOwnedPred (caller : UserCtx) (rid : String) (m : AnthroDoc) : Bool :=
  m.id == rid && m.professionalId == caller.id

/-- The pre('save') hook of the measurement schema
(AnthropometricMeasurement.js lines 111-118): when weight or
bodyFatPercentage was modified and both are truthy (a JS number is
falsy when 0 or absent), recompute leanMass. -/
def anthroPreSave (modWeight modBodyFat : Bool) (m : AnthroDoc) : AnthroDoc :=
  if modWeight || modBodyFat then
    match m.bodyFatPercentage with
    | some bf =>
      if bf ≠ 0 ∧ m.weight ≠ 0 then
        { m with leanMass := some (m.weight * (1 - bf / 100)) }
      else m
    | none => m
  else m

/-- Body of PUT /measurements/anthropometric/:id; skinfolds and
perimeters arrive as whole subdocuments. -/
structure AnthroUpdateBody where
  date : Option Nat := none
  weight : Option Rat := none
  height : Option Rat := none
  skinfolds : Option Skinfolds := none
  perimeters : Option Perimeters := none
  bodyFatPercentage : Option Rat := none
  notes : Option String := none
deriving DecidableEq, Repr

/-- The Object.keys merge loop of the anthropometric update. -/
def applyAnthroUpdate (b : AnthroUpdateBody) (m : AnthroDoc) : AnthroDoc :=
  { m with
    date := b.date.getD m.date,
    weight := b.weight.getD m.weight,
    height := b.height.getD m.height,
    skinfolds := b.skinfolds.getD m.skinfolds,
    perimeters := b.perimeters.getD m.perimeters,
    bodyFatPercentage :=
      match b.bodyFatPercentage with
      | some v => some v
      | none => m.bodyFatPercentage,
    notes := match b.notes with | some v => some v | none => m.notes }

/-- Replace the measurement with the given id. -/
def updateAnthroById (db : List AnthroDoc) (m2 : AnthroDoc) : List AnthroDoc :=
  db.map (fun x => if x.id == m2.id then m2 else x)

/-- PUT /measurements/anthropometric/:id: find the caller's record,
merge, save (the pre-save hook sees the assigned paths as modified). -/
def anthroUpdateHandler (caller : UserCtx) (rid : String) (b : AnthroUpdateBody)
    (db : List AnthroDoc) : GetResponse AnthroDoc × List AnthroDoc :=
  match db.find? (anthroOwnedPred caller rid) with
  | none => (.notFound, db)
  | some m =>
    let m2 := anthroPreSave b.weight.isSome b.bodyFatPercentage.isSome
      (applyAnthroUpdate b m)
    (.ok m2, updateAnthroById db m2)

/-- DELETE /measurements/anthropometric/:id via findOneAndDelete. -/
def anthroDeleteHandler (caller : UserCtx) (rid : String) (db : List AnthroDoc) :
    GetResponse AnthroDoc × List AnthroDoc :=
  match db.find? (anthroOwnedPred caller rid) with
  | none => (.notFound, db)
  | some m => (.ok m, db.eraseP (anthroOwnedPred caller rid))

/-! ## Report list/get/delete (reports.js lines 104-190 and 252-277) -/

/-- The query object of GET /reports as the handler builds it. -/
structure ReportQuery where
  professionalId : Option String := none
  userId : Option String := none
  type : Option String := none
  format : Option String := none
  dateGte : Option Nat := none
  dateLte : Option Nat := none
deriving Repr

/-- Matching a report against the list query. -/
def reportMatches (q : ReportQuery) (r : Report) : Bool :=
  optEq q.professionalId r.professionalId
  && optEq q.userId r.userId
  && optEq q.type r.type
  && optEq q.format r.format
  && dateInRange q.dateGte q.dateLte r.date

/-- Query built by GET /reports (reports.js lines 108-128). -/
def reportListQuery (caller : UserCtx) (type? format? : Option String)
    (sd ed : Option Nat) : ReportQuery :=
  if caller.role = Role.professional then
    { professionalId := some caller.id, type := type?, format := format?,
      dateGte := sd, dateLte := ed }
  else
    { userId := some caller.id, type := type?, format := format?,
      dateGte := sd, dateLte := ed }

/-- GET /reports (list). -/
def reportListHandler (caller : UserCtx) (type? format? : Option String)
    (sd ed : Option Nat) (page limit : Nat) (db : List Report) : Paged Report :=
  listResponse page limit (fun r => r.date)
    (db.filter (reportMatches (reportListQuery caller type? format? sd ed)))

/-- The findOne filter of GET /reports/:id. -/
def reportGetPred (caller : UserCtx) (rid : String) (r : Report) : Bool :=
  r.id == rid
  && (if caller.role = Role.professional then r.professionalId == caller.id
      else r.userId == caller.id)

/-- GET /reports/:id. -/
def reportGetHandler (caller : UserCtx) (rid : String) (db : List Report) :
    GetResponse Report :=
  match db.find? (reportGetPred caller rid) with
  | some r => .ok r
  | none => .notFound

/-- The findOne filter {_id, professionalId: caller} of share and
delete report routes. -/
def reportOwnedPred (caller : UserCtx) (rid : String) (r : Report) : Bool :=
  r.id == rid && r.professionalId == caller.id

/-- DELETE /reports/:id via findOneAndDelete. -/
def reportDeleteHandler (caller : UserCtx) (rid : String) (db : List Report) :
    GetResponse Report × List Report :=
  match db.find? (reportOwnedPred caller rid) with
  | none => (.notFound, db)
  | some r => (.ok r, db.eraseP (reportOwnedPred caller rid))

/-! ## Patients (integration.js lines 441-684) -/

/-- The patient list/findOne base filter: role 'athlete' owned by the
calling professional. -/
def patientPred (caller : UserCtx) (pid : String) (u : StoredUser) : Bool :=
  u.id == pid && roleStr u.role == "athlete" && u.professionalId == some caller.id

/-- The facets of GET /users/patients (integration.js lines 443-460):
the name is a case-insensitive regex, the rest are equality filters on
the schema paths. -/
structure PatientFacets where
  name : Option String := none
  gender : Option String := none
  age : Option Int := none
  sport : Option String := none
  position : Option String := none
deriving Repr

/-- Matching the query {professionalId: caller, role: 'athlete'} plus
facets against a stored user. -/
def patientMatches (caller : UserCtx) (f : PatientFacets) (u : StoredUser) : Bool :=
  u.professionalId == some caller.id
  && roleStr u.role == "athlete"
  && (match f.name with
      | none => true
      | some pat => ciSubstr pat u.name)
  && (match f.gender with | none => true | some g => u.gender == some g)
  && (match f.age with | none => true | some a => u.age == some a)
  && (match f.sport with | none => true | some s => u.sport == some s)
  && (match f.position with | none => true | some s => u.position == some s)

/-- select('-password -refreshToken'): the stored password never leaves
the handler. -/
def scrubPassword (u : StoredUser) : StoredUser := { u with password := "" }

/-- GET /users/patients: filter, skip/limit (no sort in this route),
countDocuments on the same query. -/
def patientsListHandler (caller : UserCtx) (f : PatientFacets) (page limit : Nat)
    (db : List StoredUser) : Paged StoredUser :=
  { data := (paginate page limit (db.filter (patientMatches caller f))).map scrubPassword,
    total := (db.filter (patientMatches caller f)).length,
    page := page, limit := limit,
    pages := pagesOf (db.filter (patientMatches caller f)).length limit }

/-- GET /users/patients/:id. -/
def patientGetHandler (caller : UserCtx) (pid : String) (db : List StoredUser) :
    GetResponse StoredUser :=
  match db.find? (patientPred caller pid) with
  | some u => .ok (scrubPassword u)
  | none => .notFound

/-- Body of PUT /users/patients/:id (the allowed-updates whitelist of
the route is exactly this field set). -/
structure PatientUpdateBody where
  name : Option String := none
  email : Option String := none
  gender : Option String := none
  age : Option Int := none
  country : Option String := none
  sport : Option String := none
  position : Option String := none
deriving DecidableEq, Repr

/-- The merge loop of the patient update. -/
def applyPatientUpdate (b : PatientUpdateBody) (u : StoredUser) : StoredUser :=
  { u with
    name := b.name.getD u.name,
    email := b.email.getD u.email,
    gender := match b.gender with | some v => some v | none => u.gender,
    age := match b.age with | some v => some v | none => u.age,
    country := match b.country with | some v => some v | none => u.country,
    sport := match b.sport with | some v => some v | none => u.sport,
    position := match b.position with | some v => some v | none => u.position }

/-- Replace the stored user with the given id. -/
def updateUserById (db : List StoredUser) (u2 : StoredUser) : List StoredUser :=
  db.map (fun x => if x.id == u2.id then u2 else x)

/-- Response of PUT /users/patients/:id. -/
inductive PatientUpdateResponse where
  | ok (u : StoredUser)
  | notFound
  | serverError
deriving DecidableEq, Repr

/-- PUT /users/patients/:id: find the owned patient, merge, save (a
schema-validation failure on save lands in the generic catch). -/
def patientUpdateHandler (caller : UserCtx) (pid : String) (b : PatientUpdateBody)
    (db : List StoredUser) : PatientUpdateResponse × List StoredUser :=
  match db.find? (patientPred caller pid) with
  | none => (.notFound, db)
  | some u =>
    let u2 := applyPatientUpdate b u
    match userSchemaErrors u2 with
    | [] => (.ok u2, updateUserById db u2)
    | _ => (.serverError, db)

/-! ## Cascade delete (DELETE /users/patients/:id, integration.js
lines 645-684) and the health-metrics collection -/

/-- The sleep subdocument of a health-metrics document. -/
structure SleepData where
  duration : Option Rat := none
  quality : Option Rat := none
  deepSleep : Option Rat := none
  lightSleep : Option Rat := none
  remSleep : Option Rat := none
deriving DecidableEq, Repr

/-- A health-metrics document (src/models/HealthMetrics.js): owned by
the athlete alone, no professional stamp. -/
structure HealthDoc where
  id : String
  userId : String
  date : Nat := 0
  sleep : SleepData := {}
  stress : Option Rat := none
  restingHeartRate : Option Rat := none
  heartRateVariability : Option Rat := none
  steps : Option Rat := none
  source : String := ""
  notes : Option String := none
deriving DecidableEq, Repr

/-- The whole persistent state the cascade touches. -/
structure AppDb where
  users : List StoredUser
  anthro : List AnthroDoc
  health : List HealthDoc
  perf : List PerfDoc
  reports : List Report
deriving Repr

/-- Response of DELETE /users/patients/:id. -/
inductive DeleteResponse where
  | ok
  | notFound
deriving DecidableEq, Repr

/-- DELETE /users/patients/:id: find the owned patient, then issue the
four deletes of integration.js lines 663-672 — deleteMany({userId})
on the three measurement collections plus patient.deleteOne() — as
independent operations (Promise.all, no transaction); the reports
collection is not touched. -/
def deletePatientHandler (db : AppDb) (caller : UserCtx) (pid : String) :
    DeleteResponse × AppDb :=
  match db.users.find? (patientPred caller pid) with
  | none => (.notFound, db)
  | some p =>
    (.ok,
     { users := db.users.eraseP (fun u => u.id == p.id),
       anthro := db.anthro.filter (fun m => !(m.userId == p.id)),
       health := db.health.filter (fun m => !(m.userId == p.id)),
       perf := db.perf.filter (fun m => !(m.userId == p.id)),
       reports := db.reports })

/-- Example athlete assigned to exPro. -/
def exAth : StoredUser :=
  { id := "ffffffffffffffffffffffff", name := "Ann", email := "ann@example.com",
    password := "longpass1", role := .athlete, gender := some "female",
    age := some 20, country := some "AR", professionalId := some exPro.id }

/-- Example patient payload whose password passes the route minimum of
6 but misses the schema minimum of 8. -/
def exPatientPayload : PatientPayload :=
  { name := "Kid", email := "kid@example.com", password := "pass67",
    gender := some "male", age := some 12, country := some "AR" }

/-- A second such payload (7-character password) for the amended
witness. -/
def exPatientPayload2 : PatientPayload :=
  { name := "Kim", email := "kim@example.com", password := "seven77",
    gender := some "female", age := some 13, country := some "AR" }

/-- Example valid report-creation payload targeting exAth. -/
def exReportPayload : ReportPayload :=
  { userId := "ffffffffffffffffffffffff", type := "individual", format := "pdf" }

/-- Example measurement with a zero body-fat percentage and a stale
stored leanMass. -/
def exMeasZeroBf : AnthroDoc :=
  { id := "hhhhhhhhhhhhhhhhhhhhhhhh", userId := "ffffffffffffffffffffffff",
    professionalId := "aaaaaaaaaaaaaaaaaaaaaaaa", weight := 70, height := 180,
    bodyFatPercentage := some 0, leanMass := some 50 }

/-- Example measurement with a 20 percent body fat. -/
def exMeas : AnthroDoc :=
  { id := "iiiiiiiiiiiiiiiiiiiiiiii", userId := "ffffffffffffffffffffffff",
    professionalId := "aaaaaaaaaaaaaaaaaaaaaaaa", weight := 70, height := 180,
    bodyFatPercentage := some 20 }

/-- Example unshared report owned by exPro for exAth. -/
def exRep : Report :=
  { id := "rrrrrrrrrrrrrrrrrrrrrrrr", userId := "ffffffffffffffffffffffff",
    professionalId := "aaaaaaaaaaaaaaaaaaaaaaaa", type := "individual",
    format := "pdf" }

/-- The professional caller context of exPro. -/
def exProCtx : UserCtx := ⟨"aaaaaaaaaaaaaaaaaaaaaaaa", Role.professional⟩

/-- Example performance record of exAth authored by exPro. -/
def perfA : PerfDoc :=
  { id := "pa111111111111111111111a", userId := "ffffffffffffffffffffffff",
    professionalId := "aaaaaaaaaaaaaaaaaaaaaaaa", date := 3 }

/-- Example anthropometric record of exAth authored by exPro. -/
def anthroA : AnthroDoc :=
  { id := "ma111111111111111111111a", userId := "ffffffffffffffffffffffff",
    professionalId := "aaaaaaaaaaaaaaaaaaaaaaaa", weight := 70, height := 180 }

/-- Example health record of exAth. -/
def healthA : HealthDoc :=
  { id := "ha111111111111111111111a", userId := "ffffffffffffffffffffffff",
    source := "garmin" }

/-- Example health record of a different athlete. -/
def healthOther : HealthDoc :=
  { id := "ho111111111111111111111a", userId := "0000000000000000000000ff",
    source := "garmin" }

/-- Example report referencing exAth. -/
def repA : Report :=
  { id := "ra111111111111111111111a", userId := "ffffffffffffffffffffffff",
    professionalId := "aaaaaaaaaaaaaaaaaaaaaaaa", type := "individual",
    format := "pdf" }

/-- Example application state before a cascade delete. -/
def exDb : AppDb :=
  { users := [exPro, exAth], anthro := [anthroA],
    health := [healthA, healthOther], perf := [perfA], reports := [repA] }

/-- Example performance record owned by a different professional B. -/
def perfB : PerfDoc :=
  { id := "pb111111111111111111111b", userId := "0000000000000000000000ff",
    professionalId := "bbbbbbbbbbbbbbbbbbbbbbbb", date := 9 }

/-- Example anthropometric record owned by professional B. -/
def anthroB : AnthroDoc :=
  { id := "mb111111111111111111111b", userId := "0000000000000000000000ff",
    professionalId := "bbbbbbbbbbbbbbbbbbbbbbbb", weight := 60, height := 165 }

/-- Example report owned by professional B. -/
def repB : Report :=
  { id := "rb111111111111111111111b", userId := "0000000000000000000000ff",
    professionalId := "bbbbbbbbbbbbbbbbbbbbbbbb", type := "individual",
    format := "pdf" }

/-- Example athlete assigned to professional B. -/
def athB : StoredUser :=
  { id := "ub111111111111111111111b", name := "Bee", email := "bee@example.com",
    password := "longpass1", role := .athlete, gender := some "male",
    age := some 22, country := some "AR",
    professionalId := some "bbbbbbbbbbbbbbbbbbbbbbbb" }

/-- Example professional registration payload with an invalid email. -/
def badEmailProPayload : RegisterPayload :=
  { name := "Pro", email := "bademail", password := "longpass1",
    role := "professional", specialization := some "s",
    licenseNumber := some "l", yearsOfExperience := some 2 }

/-- Example athlete registration payload referencing a professional id
that exists in no store. -/
def orphanAthPayload : RegisterPayload :=
  { name := "Ann", email := "ann@example.com", password := "longpass1",
    role := "athlete", gender := some "female", age := some 20,
    country := some "AR", professionalId := some "dddddddddddddddddddddddd" }

/-- Example athlete registration payload referencing the stored
professional exPro. -/
def goodAthPayload : RegisterPayload :=
  { name := "Ann", email := "ann@example.com", password := "longpass1",
    role := "athlete", gender := some "female", age := some 20,
    country := some "AR", professionalId := some exPro.id }

/-- The user document that registering goodAthPayload stores. -/
def goodAthStored : StoredUser :=
  { id := "cccccccccccccccccccccccc", name := "Ann", email := "ann@example.com",
    password := "longpass1", role := .athlete, gender := some "female",
    age := some 20, country := some "AR", professionalId := some exPro.id }

/-! ## Theorems: tokens -/

/-- C2 counterexample: at a concrete successful login, the returned
access token's claim set carries no role claim at all — it is {userId}
only (auth.js line 206), not the claimed {userId, role}. -/
theorem login_access_token_has_no_role_claim :
    loginHandler [exPro] "pat@example.com" "password1" "as" "rs" 0 =
      .ok exPro (jwtSign { userId := exPro.id } "as" 0 accessLifetime)
                (jwtSign { userId := exPro.id } "rs" 0 refreshLifetime)
    ∧ (jwtSign { userId := exPro.id } "as" 0 accessLifetime).claims.role = none
    ∧ some (roleStr exPro.role) ≠ (none : Option String) := by
  refine ⟨rfl, rfl, by decide⟩

/-- C2 amended: every successful login returns an access token signed
over the claim set {userId} (no role claim) with a 1-hour expiry under
the access secret, and a refresh token over {userId} with a 7-day
expiry under the refresh secret; each verifies under its secret exactly
until its expiry instant. -/
theorem login_token_pair_spec (db : List StoredUser) (email password aSec rSec : String)
    (now : Nat) (u : StoredUser) (t r : SignedToken)
    (h : loginHandler db email password aSec rSec now = .ok u t r) :
    t.claims = { userId := u.id, role := none }
    ∧ t.secret = aSec ∧ t.exp = now + 3600
    ∧ r.claims = { userId := u.id, role := none }
    ∧ r.secret = rSec ∧ r.exp = now + 604800
    ∧ (∀ t1, jwtVerify t aSec t1 = .ok { userId := u.id } ↔ t1 < now + 3600)
    ∧ (∀ t1, jwtVerify r rSec t1 = .ok { userId := u.id } ↔ t1 < now + 604800) := by
  unfold loginHandler at h
  cases hf : findByEmail db email with
  | none => rw [hf] at h; exact absurd h (by simp)
  | some v =>
    rw [hf] at h
    cases hm : bcryptMatches v.password password with
    | false => simp [hm] at h
    | true =>
      simp only [hm, if_true] at h
      cases h
      refine ⟨rfl, rfl, rfl, rfl, rfl, rfl, ?_, ?_⟩
      · intro t1
        by_cases hlt : t1 < now + 3600
        · simp [jwtVerify, jwtSign, accessLifetime, hlt]
        · simp [jwtVerify, jwtSign, accessLifetime, hlt]
      · intro t1
        by_cases hlt : t1 < now + 604800
        · simp [jwtVerify, jwtSign, refreshLifetime, hlt]
        · simp [jwtVerify, jwtSign, refreshLifetime, hlt]

/-- C2 amended witness: the amended statement instantiated at a
concrete login. -/
theorem login_token_pair_spec_witness :
    (jwtSign { userId := exPro.id } "as" 0 accessLifetime).claims =
      { userId := exPro.id, role := none }
    ∧ (jwtSign { userId := exPro.id } "as" 0 accessLifetime).secret = "as"
    ∧ (jwtSign { userId := exPro.id } "as" 0 accessLifetime).exp = 0 + 3600
    ∧ (jwtSign { userId := exPro.id } "rs" 0 refreshLifetime).claims =
      { userId := exPro.id, role := none }
    ∧ (jwtSign { userId := exPro.id } "rs" 0 refreshLifetime).secret = "rs"
    ∧ (jwtSign { userId := exPro.id } "rs" 0 refreshLifetime).exp = 0 + 604800
    ∧ (∀ t1, jwtVerify (jwtSign { userId := exPro.id } "as" 0 accessLifetime) "as" t1 =
        .ok { userId := exPro.id } ↔ t1 < 0 + 3600)
    ∧ (∀ t1, jwtVerify (jwtSign { userId := exPro.id } "rs" 0 refreshLifetime) "rs" t1 =
        .ok { userId := exPro.id } ↔ t1 < 0 + 604800) :=
  login_token_pair_spec [exPro] "pat@example.com" "password1" "as" "rs" 0 exPro _ _ rfl

/-- C5: refreshing with an expired or tampered refresh token, or one
whose referenced user no longer exists, fails with InvalidToken (401);
refreshing with a valid one returns a fresh pair, and — the handler
holding no token state — the same old refresh token keeps working at
any later instant before its natural expiry. -/
theorem refresh_handler_spec (db : List StoredUser) (tok : SignedToken)
    (aSec rSec : String) (now : Nat) :
    (tok.exp ≤ now → refreshHandler db tok aSec rSec now = .invalidToken)
    ∧ (tok.secret ≠ rSec → refreshHandler db tok aSec rSec now = .invalidToken)
    ∧ (findById db tok.claims.userId = none →
        refreshHandler db tok aSec rSec now = .invalidToken)
    ∧ (∀ u, tok.secret = rSec → now < tok.exp →
        findById db tok.claims.userId = some u →
        refreshHandler db tok aSec rSec now =
          .ok (jwtSign { userId := u.id } aSec now accessLifetime)
              (jwtSign { userId := u.id } rSec now refreshLifetime)
        ∧ ∀ later, later < tok.exp →
            refreshHandler db tok aSec rSec later =
              .ok (jwtSign { userId := u.id } aSec later accessLifetime)
                  (jwtSign { userId := u.id } rSec later refreshLifetime)) := by
  refine ⟨?_, ?_, ?_, ?_⟩
  · intro hexp
    unfold refreshHandler jwtVerify
    have : ¬ (tok.secret = rSec ∧ now < tok.exp) := by
      rintro ⟨-, hlt⟩; omega
    simp [this]
  · intro hsec
    unfold refreshHandler jwtVerify
    have : ¬ (tok.secret = rSec ∧ now < tok.exp) := by
      rintro ⟨hs, -⟩; exact hsec hs
    simp [this]
  · intro hnone
    unfold refreshHandler jwtVerify
    by_cases hc : tok.secret = rSec ∧ now < tok.exp
    · simp [hc, hnone]
    · simp [hc]
  · intro u hsec hlt hfind
    constructor
    · unfold refreshHandler jwtVerify
      simp [hsec, hlt, hfind]
    · intro later hlater
      unfold refreshHandler jwtVerify
      simp [hsec, hlater, hfind]

/-- C5 witness: the refresh-handler properties instantiated at a
concrete token and store (valid refresh, then reuse at a later time,
plus the expired, tampered, and user-gone failures). -/
theorem refresh_handler_spec_witness :
    (refreshHandler [exPro]
        (jwtSign { userId := exPro.id } "rs" 0 refreshLifetime) "as" "rs" 604800 =
      .invalidToken)
    ∧ (refreshHandler [exPro]
        (jwtSign { userId := exPro.id } "forged" 0 refreshLifetime) "as" "rs" 10 =
      .invalidToken)
    ∧ (refreshHandler []
        (jwtSign { userId := exPro.id } "rs" 0 refreshLifetime) "as" "rs" 10 =
      .invalidToken)
    ∧ (refreshHandler [exPro]
        (jwtSign { userId := exPro.id } "rs" 0 refreshLifetime) "as" "rs" 10 =
      .ok (jwtSign { userId := exPro.id } "as" 10 accessLifetime)
          (jwtSign { userId := exPro.id } "rs" 10 refreshLifetime))
    ∧ (refreshHandler [exPro]
        (jwtSign { userId := exPro.id } "rs" 0 refreshLifetime) "as" "rs" 20 =
      .ok (jwtSign { userId := exPro.id } "as" 20 accessLifetime)
          (jwtSign { userId := exPro.id } "rs" 20 refreshLifetime)) := by
  refine ⟨?_, ?_, ?_, ?_, ?_⟩
  · exact (refresh_handler_spec [exPro] _ "as" "rs" 604800).1 (by decide)
  · exact (refresh_handler_spec [exPro] _ "as" "rs" 10).2.1 (by decide)
  · exact (refresh_handler_spec [] _ "as" "rs" 10).2.2.1 (by decide)
  · exact ((refresh_handler_spec [exPro] _ "as" "rs" 10).2.2.2 exPro rfl (by decide)
      (by decide)).1
  · exact ((refresh_handler_spec [exPro] _ "as" "rs" 10).2.2.2 exPro rfl (by decide)
      (by decide)).2 20 (by decide)


/-! ## Theorems: registration -/

theorem mem_regNameErrs_field {p : RegisterPayload} {d : Detail}
    (h : d ∈ regNameErrs p) : d.field = "name" := by
  unfold regNameErrs at h
  repeat' split at h
  all_goals simp_all

theorem mem_regEmailErrs_field {p : RegisterPayload} {d : Detail}
    (h : d ∈ regEmailErrs p) : d.field = "email" := by
  unfold regEmailErrs at h
  repeat' split at h
  all_goals simp_all

theorem mem_regPasswordErrs_field {p : RegisterPayload} {d : Detail}
    (h : d ∈ regPasswordErrs p) : d.field = "password" := by
  unfold regPasswordErrs at h
  repeat' split at h
  all_goals simp_all

theorem mem_regRoleErrs_field {p : RegisterPayload} {d : Detail}
    (h : d ∈ regRoleErrs p) : d.field = "role" := by
  unfold regRoleErrs at h
  repeat' split at h
  all_goals simp_all

theorem mem_regSpecializationErrs_field {p : RegisterPayload} {d : Detail}
    (h : d ∈ regSpecializationErrs p) : d.field = "specialization" := by
  unfold regSpecializationErrs at h
  repeat' split at h
  all_goals simp_all

theorem mem_regLicenseErrs_field {p : RegisterPayload} {d : Detail}
    (h : d ∈ regLicenseErrs p) : d.field = "licenseNumber" := by
  unfold regLicenseErrs at h
  repeat' split at h
  all_goals simp_all

theorem mem_regExperienceErrs_field {p : RegisterPayload} {d : Detail}
    (h : d ∈ regExperienceErrs p) : d.field = "yearsOfExperience" := by
  unfold regExperienceErrs at h
  repeat' split at h
  all_goals simp_all

/-- Any stored role prints as one of the two enum strings, so the
string 'user' matches no stored user document. -/
theorem roleStr_ne_user (r : Role) : roleStr r ≠ "user" := by
  cases r <;> decide

theorem roleStr_professional_iff {r : Role} :
    roleStr r = "professional" ↔ r = Role.professional := by
  cases r <;> simp [roleStr]

/-- C6: a registration payload with role 'professional' never draws a
validation error on professionalId, gender, age, or country; an
athlete payload whose professionalId does not reference a stored user
with role 'professional' always fails route validation with a
{field, message} detail on professionalId; and a registration that
succeeds for an athlete payload did reference a stored professional. -/
theorem register_role_conditional_validation (db : List StoredUser)
    (p : RegisterPayload) (newId aSec rSec : String) (now : Nat) :
    (p.role = "professional" →
      ∀ d ∈ registerValidationErrors db p,
        d.field ≠ "professionalId" ∧ d.field ≠ "gender"
        ∧ d.field ≠ "age" ∧ d.field ≠ "country")
    ∧ (p.role = "athlete" →
        (∀ v, p.professionalId = some v → findProfessionalById db (trimStr v) = none) →
        (registerHandler db newId p aSec rSec now).1 =
          .validationFailed (registerValidationErrors db p)
        ∧ ∃ d ∈ registerValidationErrors db p, d.field = "professionalId")
    ∧ (∀ u t r db2, registerHandler db newId p aSec rSec now = (.created u t r, db2) →
        p.role = "athlete" →
        ∃ v, p.professionalId = some v ∧
          ∃ w ∈ db, w.id = trimStr v ∧ w.role = Role.professional) := by
  refine ⟨?_, ?_, ?_⟩
  · intro hrole d hd
    have hg : regGenderErrs p = [] := by simp [regGenderErrs, hrole]
    have ha : regAgeErrs p = [] := by simp [regAgeErrs, hrole]
    have hc : regCountryErrs p = [] := by simp [regCountryErrs, hrole]
    have hp : regProfessionalIdErrs db p = [] := by
      simp [regProfessionalIdErrs, hrole]
    unfold registerValidationErrors at hd
    rw [hg, ha, hc, hp] at hd
    simp only [List.append_nil, List.mem_append] at hd
    rcases hd with ((((((h | h) | h) | h) | h) | h) | h)
    · rw [mem_regNameErrs_field h]; refine ⟨by decide, by decide, by decide, by decide⟩
    · rw [mem_regEmailErrs_field h]; refine ⟨by decide, by decide, by decide, by decide⟩
    · rw [mem_regPasswordErrs_field h]; refine ⟨by decide, by decide, by decide, by decide⟩
    · rw [mem_regRoleErrs_field h]; refine ⟨by decide, by decide, by decide, by decide⟩
    · rw [mem_regSpecializationErrs_field h]
      refine ⟨by decide, by decide, by decide, by decide⟩
    · rw [mem_regLicenseErrs_field h]; refine ⟨by decide, by decide, by decide, by decide⟩
    · rw [mem_regExperienceErrs_field h]
      refine ⟨by decide, by decide, by decide, by decide⟩
  · intro hrole hno
    have hpid : ∃ d ∈ pidChecks db p.professionalId, d.field = "professionalId" := by
      cases hv : p.professionalId with
      | none =>
        refine ⟨⟨"professionalId", "Professional ID is required"⟩, ?_, rfl⟩
        unfold pidChecks
        refine List.mem_append_left _ ?_
        rw [if_pos (by decide)]
        exact List.mem_singleton.mpr rfl
      | some v =>
        by_cases hs : (trimStr v == "") = true
        · refine ⟨⟨"professionalId", "Professional ID is required"⟩, ?_, rfl⟩
          unfold pidChecks
          simp only [Option.getD_some]
          refine List.mem_append_left _ ?_
          rw [if_pos hs]
          exact List.mem_singleton.mpr rfl
        · by_cases hf2 : isObjectIdFormat (trimStr v) = true
          · have hfind : findProfessionalById db (trimStr v) = none := hno v hv
            refine ⟨⟨"professionalId", "Professional not found"⟩, ?_, rfl⟩
            unfold pidChecks
            simp only [Option.getD_some]
            refine List.mem_append_right _ ?_
            rw [if_neg (by simp [hf2]), hfind]
            exact List.mem_singleton.mpr rfl
          · refine ⟨⟨"professionalId", "Professional ID must be a valid MongoDB ObjectId"⟩, ?_, rfl⟩
            unfold pidChecks
            simp only [Option.getD_some]
            refine List.mem_append_right _ ?_
            rw [if_pos (by simp [hf2])]
            exact List.mem_singleton.mpr rfl
    obtain ⟨d, hdin, hdf⟩ := hpid
    have hdin2 : d ∈ registerValidationErrors db p := by
      unfold registerValidationErrors
      have : d ∈ regProfessionalIdErrs db p := by
        unfold regProfessionalIdErrs
        rw [if_pos (by simp [hrole])]
        exact hdin
      simp only [List.mem_append]
      tauto
    have hne : (registerValidationErrors db p).isEmpty = false := by
      cases herrs : registerValidationErrors db p with
      | nil => rw [herrs] at hdin2; cases hdin2
      | cons x xs => rfl
    constructor
    · unfold registerHandler
      simp only [hne, Bool.false_eq_true, if_false]
    · exact ⟨d, hdin2, hdf⟩
  · intro u t r db2 h hrole
    unfold registerHandler at h
    by_cases he : (registerValidationErrors db p).isEmpty = true
    case neg =>
      rw [if_neg he] at h
      cases h
    case pos =>
      rw [if_pos he] at h
      have herrs : registerValidationErrors db p = [] := by
        rwa [List.isEmpty_iff] at he
      unfold registerValidationErrors at herrs
      simp only [List.append_eq_nil] at herrs
      obtain ⟨⟨⟨⟨-, hpid⟩, -⟩, -⟩, -⟩ := herrs
      have hpid2 : pidChecks db p.professionalId = [] := by
        unfold regProfessionalIdErrs at hpid
        rwa [if_pos (by simp [hrole])] at hpid
      unfold pidChecks at hpid2
      rw [List.append_eq_nil] at hpid2
      obtain ⟨hreq, hrest⟩ := hpid2
      have hs : ¬((trimStr (p.professionalId.getD "") == "") = true) := by
        intro hcontra
        rw [if_pos hcontra] at hreq
        cases hreq
      have hfmt : isObjectIdFormat (trimStr (p.professionalId.getD "")) = true := by
        by_contra hcontra
        rw [if_pos (by simp [hcontra])] at hrest
        cases hrest
      rw [if_neg (by simp [hfmt])] at hrest
      cases hfind : findProfessionalById db (trimStr (p.professionalId.getD "")) with
      | none => rw [hfind] at hrest; cases hrest
      | some w =>
        cases hv : p.professionalId with
        | none =>
          exfalso
          apply hs
          rw [hv]
          decide
        | some v =>
          rw [hv] at hfind
          simp only [Option.getD_some] at hfind
          have hw : w ∈ db := List.mem_of_find?_eq_some hfind
          have hwp := List.find?_some hfind
          rw [Bool.and_eq_true] at hwp
          obtain ⟨hid, hrole2⟩ := hwp
          refine ⟨v, rfl, w, hw, ?_, ?_⟩
          · exact beq_iff_eq.mp hid
          · exact roleStr_professional_iff.mp (beq_iff_eq.mp hrole2)


/-- C6 witness: the three conjuncts at concrete inputs — a professional
payload with an invalid email whose single validation detail is not on
the four athlete fields; an athlete payload referencing a missing
professional, which fails with a professionalId detail; and a
successful athlete registration against a stored professional. -/
theorem register_role_conditional_validation_witness :
    ((⟨"email", "Please enter a valid email"⟩ : Detail).field ≠ "professionalId"
      ∧ (⟨"email", "Please enter a valid email"⟩ : Detail).field ≠ "gender"
      ∧ (⟨"email", "Please enter a valid email"⟩ : Detail).field ≠ "age"
      ∧ (⟨"email", "Please enter a valid email"⟩ : Detail).field ≠ "country")
    ∧ ((registerHandler [] "cccccccccccccccccccccccc" orphanAthPayload "as" "rs" 0).1 =
        .validationFailed (registerValidationErrors [] orphanAthPayload)
      ∧ ∃ d ∈ registerValidationErrors [] orphanAthPayload, d.field = "professionalId")
    ∧ (∃ v, goodAthPayload.professionalId = some v
        ∧ ∃ w ∈ [exPro], w.id = trimStr v ∧ w.role = Role.professional) := by
  refine ⟨?_, ?_, ?_⟩
  · exact (register_role_conditional_validation [] badEmailProPayload
      "cccccccccccccccccccccccc" "as" "rs" 0).1 rfl
      ⟨"email", "Please enter a valid email"⟩ (by decide)
  · exact (register_role_conditional_validation [] orphanAthPayload
      "cccccccccccccccccccccccc" "as" "rs" 0).2.1 rfl
      (fun v hv => by cases hv; rfl)
  · exact (register_role_conditional_validation [exPro] goodAthPayload
      "cccccccccccccccccccccccc" "as" "rs" 0).2.2 goodAthStored
      (jwtSign { userId := "cccccccccccccccccccccccc", role := some "athlete" } "as" 0
        accessLifetime)
      (jwtSign { userId := "cccccccccccccccccccccccc" } "rs" 0 refreshLifetime)
      [exPro, goodAthStored] (by decide) rfl

/-- A user document whose password is shorter than 8 never passes the
schema validation. -/
theorem userSchemaErrors_ne_nil_of_short_password (u : StoredUser)
    (h : u.password.length < 8) : userSchemaErrors u ≠ [] := by
  intro hnil
  unfold userSchemaErrors at hnil
  simp only [List.append_eq_nil] at hnil
  obtain ⟨⟨⟨-, -⟩, hpw⟩, -⟩ := hnil
  by_cases h0 : (u.password == "") = true
  · rw [if_pos h0] at hpw; cases hpw
  · rw [if_neg h0, if_pos h] at hpw; cases hpw

/-- Saving a user document with a password shorter than 8 throws a
ValidationError. -/
theorem userSave_error_of_short_password (u : StoredUser)
    (h : u.password.length < 8) : ∃ ds, userSave u = .error ds := by
  cases hse : userSchemaErrors u with
  | nil => exact absurd hse (userSchemaErrors_ne_nil_of_short_password u h)
  | cons x xs => exact ⟨x :: xs, by unfold userSave; rw [hse]⟩

/-- C9 counterexample: a patient payload whose password has 6
characters passes route validation (minimum 6) but violates the
schema minimum of 8, and the handler answers the generic InternalError
(500) with no {field, message} details — not a ValidationFailed-style
response. -/
theorem patient_password_gap_counterexample :
    createPatientHandler [] ⟨"aaaaaaaaaaaaaaaaaaaaaaaa", Role.professional⟩
      "bbbbbbbbbbbbbbbbbbbbbbbb" exPatientPayload = (.serverError, []) := by
  decide

/-- C9 amended: every handler failure is still caught and mapped to an
error response, but only the register handler unpacks database
validation errors; the patient-creation handler maps a schema
validation failure — e.g. any password of length 6 or 7 that passed
route validation — to the generic InternalError (500), leaving the
store unchanged. -/
theorem createPatient_schema_failure_generic (db : List StoredUser)
    (caller : UserCtx) (newId : String) (p : PatientPayload)
    (hv : patientValidationErrors p = [])
    (hlen : p.password.length < 8)
    (hfresh : findByEmail db p.email = none) :
    createPatientHandler db caller newId p = (.serverError, db) := by
  simp only [createPatientHandler, hv, List.isEmpty_nil, if_true, hfresh]
  obtain ⟨ds, hds⟩ :=
    userSave_error_of_short_password (builtPatient caller newId p) (by exact hlen)
  rw [hds]

/-- C9 amended witness: the amended statement at a concrete payload
with a 7-character password. -/
theorem createPatient_schema_failure_generic_witness :
    createPatientHandler [exPro] ⟨exPro.id, Role.professional⟩
      "eeeeeeeeeeeeeeeeeeeeeeee" exPatientPayload2 = (.serverError, [exPro]) :=
  createPatient_schema_failure_generic [exPro] ⟨exPro.id, Role.professional⟩
    "eeeeeeeeeeeeeeeeeeeeeeee" exPatientPayload2 (by decide) (by decide) rfl

/-- C3: the ownership lookup of POST /reports requires role 'user',
which no stored user can have (the role enum holds only 'athlete' and
'professional'), so the report collection is never extended, and every
request that passes validation is answered NotFound. -/
theorem report_creation_always_not_found (db : List StoredUser)
    (reports : List Report) (caller : UserCtx) (newId : String)
    (p : ReportPayload) (now : Nat) (rand : String) :
    (createReportHandler db reports caller newId p now rand).2 = reports
    ∧ (reportPayloadValid p = true →
        createReportHandler db reports caller newId p now rand = (.notFound, reports)) := by
  have hfind : db.find? (fun u => u.id == p.userId && roleStr u.role == "user"
      && u.professionalId == some caller.id) = none := by
    rw [List.find?_eq_none]
    intro u hu hpred
    rw [Bool.and_eq_true, Bool.and_eq_true] at hpred
    obtain ⟨⟨-, hrole⟩, -⟩ := hpred
    exact roleStr_ne_user u.role (beq_iff_eq.mp hrole)
  constructor
  · unfold createReportHandler
    by_cases hvv : reportPayloadValid p = true
    · rw [if_pos hvv, hfind]
    · rw [if_neg hvv]
  · intro hvv
    unfold createReportHandler
    rw [if_pos hvv, hfind]

/-- C3 witness: the ownership lookup fails even for a professional
whose own assigned athlete is the target, and no report is stored. -/
theorem report_creation_always_not_found_witness :
    createReportHandler [exPro, exAth] [] ⟨exPro.id, Role.professional⟩
      "gggggggggggggggggggggggg" exReportPayload 0 "code1" = (.notFound, []) :=
  (report_creation_always_not_found [exPro, exAth] [] ⟨exPro.id, Role.professional⟩
    "gggggggggggggggggggggggg" exReportPayload 0 "code1").2 (by decide)

/-! ## Theorems: the leanMass save hook (C10) -/

/-- C10 counterexample: a measurement with bodyFatPercentage present
but equal to 0 (a value the validators accept) and weight modified:
the hook's truthiness test skips the recomputation, so leanMass keeps
its stale stored value instead of weight * (1 - 0/100). -/
theorem leanMass_zero_bodyfat_counterexample :
    exMeasZeroBf.bodyFatPercentage = some 0
    ∧ anthroPreSave true false exMeasZeroBf = exMeasZeroBf
    ∧ (anthroPreSave true false exMeasZeroBf).leanMass ≠
        some (exMeasZeroBf.weight * (1 - 0 / 100)) := by
  refine ⟨rfl, ?_, ?_⟩
  · simp [anthroPreSave, exMeasZeroBf]
  · have h : anthroPreSave true false exMeasZeroBf = exMeasZeroBf := by
      simp [anthroPreSave, exMeasZeroBf]
    rw [h]
    simp only [exMeasZeroBf]
    norm_num

/-- C10 amended: when weight or bodyFatPercentage was modified and both
are truthy (present and nonzero, per the JS truthiness test), the hook
sets leanMass to weight * (1 - bodyFatPercentage/100); when either is
absent or zero, or nothing relevant was modified, the document is left
unchanged. -/
theorem leanMass_hook_spec (m : AnthroDoc) (modW modB : Bool) :
    ((modW || modB) = true →
      ∀ bf, m.bodyFatPercentage = some bf → bf ≠ 0 → m.weight ≠ 0 →
        anthroPreSave modW modB m =
          { m with leanMass := some (m.weight * (1 - bf / 100)) })
    ∧ (m.bodyFatPercentage = none → anthroPreSave modW modB m = m)
    ∧ (m.bodyFatPercentage = some 0 → anthroPreSave modW modB m = m)
    ∧ (m.weight = 0 → anthroPreSave modW modB m = m)
    ∧ ((modW || modB) = false → anthroPreSave modW modB m = m) := by
  refine ⟨?_, ?_, ?_, ?_, ?_⟩
  · intro hmod bf hbf hbf0 hw
    simp [anthroPreSave, hmod, hbf, hbf0, hw]
  · intro h
    cases hmm : (modW || modB) <;> simp [anthroPreSave, hmm, h]
  · intro h
    cases hmm : (modW || modB) <;> simp [anthroPreSave, hmm, h]
  · intro h
    cases hbf : m.bodyFatPercentage <;> cases hmm : (modW || modB) <;>
      simp [anthroPreSave, hmm, hbf, h]
  · intro h
    simp [anthroPreSave, h]

/-- C10 amended witness: the hook at a concrete measurement with 20
percent body fat and a modified weight, plus a no-modification save. -/
theorem leanMass_hook_spec_witness :
    anthroPreSave true false exMeas =
      { exMeas with leanMass := some (exMeas.weight * (1 - 20 / 100)) }
    ∧ anthroPreSave false false exMeas = exMeas := by
  constructor
  · exact (leanMass_hook_spec exMeas true false).1 rfl 20 rfl (by norm_num)
      (by norm_num [exMeas])
  · exact (leanMass_hook_spec exMeas false false).2.2.2.2 rfl

/-! ## Theorems: report sharing (C7) -/

theorem reportPreSave_of_accessCode_some (rand : String) (x : Report) (c : String)
    (h : x.accessCode = some c) : reportPreSave rand x = x := by
  unfold reportPreSave
  rw [h]
  simp

theorem report_set_shared_self (x : Report) (h : x.shared = true) :
    { x with shared := true } = x := by
  cases x
  simp_all

/-- Sharing replaces the found report by its updated version, and a
later find with the same filter retrieves that updated version. -/
theorem shareFind_updateReportById (reports : List Report) (cid rid : String)
    (r r2 : Report) (hfind : shareFind reports cid rid = some r)
    (hid : r2.id = r.id) (hpred2 : (r2.id == rid && r2.professionalId == cid) = true) :
    shareFind (updateReportById reports r2) cid rid = some r2 := by
  induction reports with
  | nil => simp [shareFind] at hfind
  | cons x xs ih =>
    by_cases hxid : (x.id == r2.id) = true
    · unfold updateReportById shareFind
      rw [List.map_cons, if_pos hxid]
      simp [List.find?_cons, hpred2]
    · by_cases hpx : (x.id == rid && x.professionalId == cid) = true
      · exfalso
        unfold shareFind at hfind
        simp only [List.find?_cons, hpx, if_true] at hfind
        injection hfind with hxr
        apply hxid
        rw [hxr, hid]
        exact beq_iff_eq.mpr rfl
      · unfold shareFind at hfind
        simp only [List.find?_cons, hpx, if_false, Bool.false_eq_true] at hfind
        unfold updateReportById shareFind
        rw [List.map_cons, if_neg hxid]
        simp only [List.find?_cons, hpx, if_false, Bool.false_eq_true]
        exact ih hfind

theorem updateReportById_idem (db : List Report) (r2 : Report) :
    updateReportById (updateReportById db r2) r2 = updateReportById db r2 := by
  unfold updateReportById
  rw [List.map_map]
  apply List.map_congr_left
  intro x _
  by_cases hx : (x.id == r2.id) = true
  · simp [Function.comp, hx]
  · simp [Function.comp, hx]

/-- C7: sharing generates the access code at most once — a report that
already carries a code keeps it unchanged on re-share (and a repeated
share is a no-op on both the response and the collection), a first
share of a shared report without a code assigns the fresh one, and the
shared-report fetch succeeds exactly when some report carries that
code with its shared flag set. -/
theorem share_report_spec (reports : List Report) (caller : UserCtx)
    (rid rand rand2 : String) (r : Report)
    (hfind : shareFind reports caller.id rid = some r) :
    (∀ code, r.accessCode = some code →
      shareReportHandler reports caller rid rand =
        (.ok { r with shared := true },
         updateReportById reports { r with shared := true }))
    ∧ (r.accessCode = none →
      shareReportHandler reports caller rid rand =
        (.ok { r with shared := true, accessCode := some rand },
         updateReportById reports { r with shared := true, accessCode := some rand }))
    ∧ (shareReportHandler (shareReportHandler reports caller rid rand).2 caller rid rand2 =
        ((shareReportHandler reports caller rid rand).1,
         (shareReportHandler reports caller rid rand).2))
    ∧ (∀ (db2 : List Report) (code : String),
        (getSharedReportHandler db2 code).isSome = true ↔
          ∃ x ∈ db2, x.accessCode = some code ∧ x.shared = true) := by
  have hpred := List.find?_some hfind
  rw [Bool.and_eq_true] at hpred
  obtain ⟨hridr, hpror⟩ := hpred
  refine ⟨?_, ?_, ?_, ?_⟩
  · intro code hc
    have hps : reportPreSave rand { r with shared := true } = { r with shared := true } :=
      reportPreSave_of_accessCode_some rand _ code hc
    simp only [shareReportHandler, hfind, hps]
  · intro hc
    have hps : reportPreSave rand { r with shared := true } =
        { r with shared := true, accessCode := some rand } := by
      unfold reportPreSave
      rw [if_pos (by simp [hc])]
    simp only [shareReportHandler, hfind, hps]
  · -- the record stored by the first share
    have hcode : ∃ c, (reportPreSave rand { r with shared := true }).accessCode = some c := by
      cases hac : r.accessCode with
      | some c =>
        refine ⟨c, ?_⟩
        rw [reportPreSave_of_accessCode_some rand _ c (by simp [hac])]
      | none =>
        refine ⟨rand, ?_⟩
        unfold reportPreSave
        rw [if_pos (by simp [hac])]
    obtain ⟨c, hc⟩ := hcode
    have hshared : (reportPreSave rand { r with shared := true }).shared = true := by
      unfold reportPreSave
      split <;> rfl
    have hid2 : (reportPreSave rand { r with shared := true }).id = r.id := by
      unfold reportPreSave
      split <;> rfl
    have hpro2 : (reportPreSave rand { r with shared := true }).professionalId =
        r.professionalId := by
      unfold reportPreSave
      split <;> rfl
    have hfirst : shareReportHandler reports caller rid rand =
        (.ok (reportPreSave rand { r with shared := true }),
         updateReportById reports (reportPreSave rand { r with shared := true })) := by
      simp only [shareReportHandler, hfind]
    rw [hfirst]
    have hfind2 : shareFind
        (updateReportById reports (reportPreSave rand { r with shared := true }))
        caller.id rid = some (reportPreSave rand { r with shared := true }) := by
      apply shareFind_updateReportById reports caller.id rid r _ hfind hid2
      rw [Bool.and_eq_true]
      constructor
      · rw [hid2]; exact hridr
      · rw [hpro2]; exact hpror
    simp only [shareReportHandler, hfind2, report_set_shared_self _ hshared,
      reportPreSave_of_accessCode_some rand2 _ c hc, updateReportById_idem]
  · intro db2 code
    unfold getSharedReportHandler
    rw [List.find?_isSome]
    constructor
    · rintro ⟨x, hx, hpx⟩
      rw [Bool.and_eq_true] at hpx
      exact ⟨x, hx, beq_iff_eq.mp hpx.1, hpx.2⟩
    · rintro ⟨x, hx, hac, hsh⟩
      exact ⟨x, hx, by rw [Bool.and_eq_true]; exact ⟨beq_iff_eq.mpr hac, hsh⟩⟩

/-- C7 witness: sharing a concrete unshared report assigns the fresh
code, a second share with a different random value changes nothing,
and the public fetch finds the shared report by its code. -/
theorem share_report_spec_witness :
    shareReportHandler [exRep] exProCtx "rrrrrrrrrrrrrrrrrrrrrrrr" "code1" =
      (.ok { exRep with shared := true, accessCode := some "code1" },
       updateReportById [exRep] { exRep with shared := true, accessCode := some "code1" })
    ∧ (shareReportHandler
        (shareReportHandler [exRep] exProCtx "rrrrrrrrrrrrrrrrrrrrrrrr" "code1").2
        exProCtx "rrrrrrrrrrrrrrrrrrrrrrrr" "code2" =
        ((shareReportHandler [exRep] exProCtx "rrrrrrrrrrrrrrrrrrrrrrrr" "code1").1,
         (shareReportHandler [exRep] exProCtx "rrrrrrrrrrrrrrrrrrrrrrrr" "code1").2))
    ∧ ((getSharedReportHandler [{ exRep with shared := true, accessCode := some "code1" }]
          "code1").isSome = true ↔
        ∃ x ∈ [{ exRep with shared := true, accessCode := some "code1" }],
          x.accessCode = some "code1" ∧ x.shared = true) := by
  obtain ⟨-, h2, h3, h4⟩ := share_report_spec [exRep] exProCtx
    "rrrrrrrrrrrrrrrrrrrrrrrr" "code1" "code2" exRep (by decide)
  exact ⟨h2 rfl, h3, h4 _ "code1"⟩

/-! ## Theorems: cascade delete (C8) -/

/-- Erasing by id removes a stored user from an id-unique store. -/
theorem eraseP_id_not_mem {l : List StoredUser}
    (hN : (l.map (fun u => u.id)).Nodup) (p : StoredUser) (hp : p ∈ l) :
    p ∉ l.eraseP (fun u => u.id == p.id) := by
  induction l with
  | nil => cases hp
  | cons x xs ih =>
    rw [List.map_cons, List.nodup_cons] at hN
    obtain ⟨hx, hN2⟩ := hN
    cases hxe : (x.id == p.id) with
    | true =>
      simp only [List.eraseP_cons, hxe, cond_true]
      intro hmem
      apply hx
      rw [beq_iff_eq.mp hxe]
      exact List.mem_map_of_mem _ hmem
    | false =>
      simp only [List.eraseP_cons, hxe, cond_false]
      intro hmem
      rcases List.mem_cons.mp hmem with he | hm
      · rw [he] at hxe
        simp at hxe
      · have hp2 : p ∈ xs := by
          rcases List.mem_cons.mp hp with h1 | h2
          · exfalso; rw [h1] at hxe; simp at hxe
          · exact h2
        exact ih hN2 hp2 hm

/-- C8: deleting a found patient answers ok and leaves exactly this
state: the reports collection untouched, each of the three measurement
collections holding precisely its records whose userId differs from
the patient's, the patient record gone (under unique ids), and every
other user retained. -/
theorem delete_patient_cascade (db : AppDb) (caller : UserCtx) (pid : String)
    (p : StoredUser)
    (hN : (db.users.map (fun u => u.id)).Nodup)
    (hfind : db.users.find? (patientPred caller pid) = some p) :
    (deletePatientHandler db caller pid).1 = .ok
    ∧ (deletePatientHandler db caller pid).2.reports = db.reports
    ∧ (∀ m : AnthroDoc, m ∈ (deletePatientHandler db caller pid).2.anthro ↔
        m ∈ db.anthro ∧ m.userId ≠ p.id)
    ∧ (∀ m : HealthDoc, m ∈ (deletePatientHandler db caller pid).2.health ↔
        m ∈ db.health ∧ m.userId ≠ p.id)
    ∧ (∀ m : PerfDoc, m ∈ (deletePatientHandler db caller pid).2.perf ↔
        m ∈ db.perf ∧ m.userId ≠ p.id)
    ∧ p ∉ (deletePatientHandler db caller pid).2.users
    ∧ (∀ u ∈ db.users, u.id ≠ p.id → u ∈ (deletePatientHandler db caller pid).2.users) := by
  have hd : deletePatientHandler db caller pid =
      (.ok, { users := db.users.eraseP (fun u => u.id == p.id),
              anthro := db.anthro.filter (fun m => !(m.userId == p.id)),
              health := db.health.filter (fun m => !(m.userId == p.id)),
              perf := db.perf.filter (fun m => !(m.userId == p.id)),
              reports := db.reports }) := by
    simp only [deletePatientHandler, hfind]
  rw [hd]
  refine ⟨rfl, rfl, ?_, ?_, ?_, ?_, ?_⟩
  · intro m
    simp [List.mem_filter]
  · intro m
    simp [List.mem_filter]
  · intro m
    simp [List.mem_filter]
  · exact eraseP_id_not_mem hN p (List.mem_of_find?_eq_some hfind)
  · intro u hu hne
    rw [List.mem_eraseP_of_neg (by simp [hne])]
    exact hu

/-- C8 witness: deleting exAth from a concrete state keeps the report
and the other athlete's health record, removes exAth's three records
and the exAth user itself, and keeps exPro. -/
theorem delete_patient_cascade_witness :
    (deletePatientHandler exDb exProCtx "ffffffffffffffffffffffff").1 = .ok
    ∧ (deletePatientHandler exDb exProCtx "ffffffffffffffffffffffff").2.reports =
        exDb.reports
    ∧ (healthOther ∈ (deletePatientHandler exDb exProCtx "ffffffffffffffffffffffff").2.health
        ↔ healthOther ∈ exDb.health ∧ healthOther.userId ≠ exAth.id)
    ∧ (anthroA ∈ (deletePatientHandler exDb exProCtx "ffffffffffffffffffffffff").2.anthro
        ↔ anthroA ∈ exDb.anthro ∧ anthroA.userId ≠ exAth.id)
    ∧ exAth ∉ (deletePatientHandler exDb exProCtx "ffffffffffffffffffffffff").2.users
    ∧ exPro ∈ (deletePatientHandler exDb exProCtx "ffffffffffffffffffffffff").2.users := by
  obtain ⟨h1, h2, h3, h4, h5, h6, h7⟩ :=
    delete_patient_cascade exDb exProCtx "ffffffffffffffffffffffff" exAth
      (by decide) (by decide)
  exact ⟨h1, h2, h4 healthOther, h3 anthroA, h6,
    h7 exPro (by decide) (by decide)⟩

/-! ## Theorems: ownership scoping (C1, C4) -/

/-- Filtering by a query whose matches all satisfy a scope predicate is
insensitive to first restricting the collection to that scope. -/
theorem filter_sub {α : Type} (p o : α → Bool) (h : ∀ a, p a = true → o a = true)
    (l : List α) : (l.filter o).filter p = l.filter p := by
  induction l with
  | nil => rfl
  | cons x xs ih =>
    cases hp : p x with
    | true =>
      have ho := h x hp
      simp [List.filter_cons, ho, hp, ih]
    | false =>
      cases ho : o x with
      | true => simp [List.filter_cons, ho, hp, ih]
      | false => simp [List.filter_cons, ho, hp, ih]

/-- Whatever pagination and sorting return came from the input list. -/
theorem mem_of_mem_paginate_sort {α : Type} (date : α → Nat) (pg lim : Nat)
    (a : α) (l : List α) (h : a ∈ paginate pg lim (sortDateDesc date l)) :
    a ∈ l := by
  unfold paginate at h
  have h2 := List.take_subset _ _ h
  have h3 := List.drop_subset _ _ h2
  unfold sortDateDesc at h3
  exact List.mem_mergeSort.mp h3

theorem fieldVal_professionalId (m : AnthroDoc) :
    m.fieldVal "professionalId" = some m.professionalId := rfl

theorem fieldVal_id (m : AnthroDoc) : m.fieldVal "_id" = some m.id := rfl

theorem fieldVal_athleteId (m : AnthroDoc) : m.fieldVal "athleteId" = none := rfl

/-- Every match of the professional performance list query is a record
the caller owns. -/
theorem perfMatches_pro_scope (c : String) (uidP : Option String)
    (sd ed : Option Nat) (spP : Option String) (r : PerfDoc)
    (h : perfMatches (perfListQuery ⟨c, Role.professional⟩ uidP sd ed spP) r = true) :
    (r.professionalId == c) = true := by
  unfold perfListQuery at h
  rw [if_pos rfl] at h
  unfold perfMatches at h
  simp only [Bool.and_eq_true] at h
  obtain ⟨⟨⟨h1, -⟩, -⟩, -⟩ := h
  simp only [optEq] at h1
  exact beq_iff_eq.mpr (beq_iff_eq.mp h1).symm

/-- Every match of the professional anthropometric list query is a
record the caller owns. -/
theorem anthroMatches_pro_scope (c : String) (athP : Option String)
    (sd ed : Option Nat) (m : AnthroDoc)
    (h : anthroListMatches ⟨c, Role.professional⟩ athP sd ed m = true) :
    (m.professionalId == c) = true := by
  unfold anthroListMatches at h
  rw [Bool.and_eq_true] at h
  have h1 := h.1
  unfold anthroListConds at h1
  rw [if_pos rfl] at h1
  unfold anthroCondsMatch at h1
  rw [List.all_cons, Bool.and_eq_true] at h1
  have h2 := h1.1
  rw [fieldVal_professionalId] at h2
  have h3 : some m.professionalId = some c := beq_iff_eq.mp h2
  exact beq_iff_eq.mpr (Option.some.inj h3)

/-- Every match of the professional report list query is a report the
caller owns. -/
theorem reportMatches_pro_scope (c : String) (tP fP : Option String)
    (sd ed : Option Nat) (r : Report)
    (h : reportMatches (reportListQuery ⟨c, Role.professional⟩ tP fP sd ed) r = true) :
    (r.professionalId == c) = true := by
  unfold reportListQuery at h
  rw [if_pos rfl] at h
  unfold reportMatches at h
  simp only [Bool.and_eq_true] at h
  obtain ⟨⟨⟨⟨h1, -⟩, -⟩, -⟩, -⟩ := h
  simp only [optEq] at h1
  exact beq_iff_eq.mpr (beq_iff_eq.mp h1).symm

/-- Every match of the patients list query is an athlete assigned to
the caller. -/
theorem patientMatches_pro_scope (c : String) (fc : PatientFacets) (u : StoredUser)
    (h : patientMatches ⟨c, Role.professional⟩ fc u = true) :
    (u.professionalId == some c) = true := by
  unfold patientMatches at h
  simp only [Bool.and_eq_true] at h
  exact h.1.1.1.1.1.1

/-- C1: a professional caller's responses are computed from the records
carrying the caller's own professionalId alone. For each record kind —
performance, anthropometric, report, patient — the list handler's
response on the full store equals its response on the store restricted
to the caller's records, every listed record carries the caller's id,
and when every record under a requested id belongs to someone else the
by-id get/update/delete/share handlers answer NotFound (404) and leave
the store unchanged, so professional A's responses are independent of
professional B's records and existence is not leaked. -/
theorem professional_scope_isolation (c rid : String)
    (uidP athP tP fP spP : Option String) (sd ed : Option Nat) (pg lim : Nat)
    (pub : PerfUpdateBody) (aub : AnthroUpdateBody) (patb : PatientUpdateBody)
    (fc : PatientFacets) (rand : String)
    (perfDb : List PerfDoc) (anthroDb : List AnthroDoc) (repDb : List Report)
    (userDb : List StoredUser) (dbAll : AppDb) :
    (perfListHandler ⟨c, Role.professional⟩ uidP sd ed spP pg lim perfDb =
      perfListHandler ⟨c, Role.professional⟩ uidP sd ed spP pg lim
        (perfDb.filter (fun r => r.professionalId == c)))
    ∧ (∀ r ∈ (perfListHandler ⟨c, Role.professional⟩ uidP sd ed spP pg lim perfDb).data,
        r.professionalId = c)
    ∧ ((∀ r ∈ perfDb, r.id = rid → r.professionalId ≠ c) →
        perfGetHandler ⟨c, Role.professional⟩ rid perfDb = .notFound
        ∧ perfUpdateHandler ⟨c, Role.professional⟩ rid pub perfDb = (.notFound, perfDb)
        ∧ perfDeleteHandler ⟨c, Role.professional⟩ rid perfDb = (.notFound, perfDb))
    ∧ (anthroListHandler ⟨c, Role.professional⟩ athP sd ed pg lim anthroDb =
        anthroListHandler ⟨c, Role.professional⟩ athP sd ed pg lim
          (anthroDb.filter (fun m => m.professionalId == c)))
    ∧ (∀ m ∈ (anthroListHandler ⟨c, Role.professional⟩ athP sd ed pg lim anthroDb).data,
        m.professionalId = c)
    ∧ ((∀ m ∈ anthroDb, m.id = rid → m.professionalId ≠ c) →
        anthroGetHandler ⟨c, Role.professional⟩ rid anthroDb = .notFound
        ∧ anthroUpdateHandler ⟨c, Role.professional⟩ rid aub anthroDb = (.notFound, anthroDb)
        ∧ anthroDeleteHandler ⟨c, Role.professional⟩ rid anthroDb = (.notFound, anthroDb))
    ∧ (reportListHandler ⟨c, Role.professional⟩ tP fP sd ed pg lim repDb =
        reportListHandler ⟨c, Role.professional⟩ tP fP sd ed pg lim
          (repDb.filter (fun r => r.professionalId == c)))
    ∧ (∀ r ∈ (reportListHandler ⟨c, Role.professional⟩ tP fP sd ed pg lim repDb).data,
        r.professionalId = c)
    ∧ ((∀ r ∈ repDb, r.id = rid → r.professionalId ≠ c) →
        reportGetHandler ⟨c, Role.professional⟩ rid repDb = .notFound
        ∧ shareReportHandler repDb ⟨c, Role.professional⟩ rid rand = (.notFound, repDb)
        ∧ reportDeleteHandler ⟨c, Role.professional⟩ rid repDb = (.notFound, repDb))
    ∧ (patientsListHandler ⟨c, Role.professional⟩ fc pg lim userDb =
        patientsListHandler ⟨c, Role.professional⟩ fc pg lim
          (userDb.filter (fun u => u.professionalId == some c)))
    ∧ (∀ u ∈ (patientsListHandler ⟨c, Role.professional⟩ fc pg lim userDb).data,
        u.professionalId = some c)
    ∧ ((∀ u ∈ userDb, u.id = rid → u.professionalId ≠ some c) →
        patientGetHandler ⟨c, Role.professional⟩ rid userDb = .notFound
        ∧ patientUpdateHandler ⟨c, Role.professional⟩ rid patb userDb = (.notFound, userDb))
    ∧ ((∀ u ∈ dbAll.users, u.id = rid → u.professionalId ≠ some c) →
        deletePatientHandler dbAll ⟨c, Role.professional⟩ rid = (.notFound, dbAll)) := by
  refine ⟨?_, ?_, ?_, ?_, ?_, ?_, ?_, ?_, ?_, ?_, ?_, ?_, ?_⟩
  · unfold perfListHandler
    exact congrArg (listResponse pg lim (fun r => r.date))
      (filter_sub (perfMatches (perfListQuery ⟨c, Role.professional⟩ uidP sd ed spP))
        (fun r => r.professionalId == c)
        (fun r => perfMatches_pro_scope c uidP sd ed spP r) perfDb).symm
  · intro r hr
    simp only [perfListHandler, listResponse] at hr
    have h2 := mem_of_mem_paginate_sort _ _ _ _ _ hr
    have h3 := (List.mem_filter.mp h2).2
    exact beq_iff_eq.mp (perfMatches_pro_scope c uidP sd ed spP r h3)
  · intro hyp
    have hg : perfDb.find? (perfGetPred ⟨c, Role.professional⟩ rid) = none := by
      rw [List.find?_eq_none]
      intro x hx hpred
      unfold perfGetPred at hpred
      rw [if_pos rfl, Bool.and_eq_true] at hpred
      exact hyp x hx (beq_iff_eq.mp hpred.1) (beq_iff_eq.mp hpred.2)
    have ho : perfDb.find? (perfOwnedPred ⟨c, Role.professional⟩ rid) = none := by
      rw [List.find?_eq_none]
      intro x hx hpred
      unfold perfOwnedPred at hpred
      rw [Bool.and_eq_true] at hpred
      exact hyp x hx (beq_iff_eq.mp hpred.1) (beq_iff_eq.mp hpred.2)
    refine ⟨?_, ?_, ?_⟩
    · unfold perfGetHandler; rw [hg]
    · unfold perfUpdateHandler; rw [ho]
    · unfold perfDeleteHandler; rw [ho]
  · unfold anthroListHandler
    exact congrArg (listResponse pg lim (fun m => m.date))
      (filter_sub (anthroListMatches ⟨c, Role.professional⟩ athP sd ed)
        (fun m => m.professionalId == c)
        (fun m => anthroMatches_pro_scope c athP sd ed m) anthroDb).symm
  · intro m hm
    simp only [anthroListHandler, listResponse] at hm
    have h2 := mem_of_mem_paginate_sort _ _ _ _ _ hm
    have h3 := (List.mem_filter.mp h2).2
    exact beq_iff_eq.mp (anthroMatches_pro_scope c athP sd ed m h3)
  · intro hyp
    have hg : anthroDb.find?
        (anthroCondsMatch (anthroGetConds ⟨c, Role.professional⟩ rid)) = none := by
      rw [List.find?_eq_none]
      intro x hx hpred
      unfold anthroGetConds at hpred
      rw [if_pos rfl] at hpred
      unfold anthroCondsMatch at hpred
      simp only [List.all_cons, List.all_nil, Bool.and_eq_true] at hpred
      obtain ⟨h1, h2, -⟩ := hpred
      rw [fieldVal_id] at h1
      rw [fieldVal_professionalId] at h2
      exact hyp x hx (Option.some.inj (beq_iff_eq.mp h1))
        (Option.some.inj (beq_iff_eq.mp h2))
    have ho : anthroDb.find? (anthroOwnedPred ⟨c, Role.professional⟩ rid) = none := by
      rw [List.find?_eq_none]
      intro x hx hpred
      unfold anthroOwnedPred at hpred
      rw [Bool.and_eq_true] at hpred
      exact hyp x hx (beq_iff_eq.mp hpred.1) (beq_iff_eq.mp hpred.2)
    refine ⟨?_, ?_, ?_⟩
    · unfold anthroGetHandler; rw [hg]
    · unfold anthroUpdateHandler; rw [ho]
    · unfold anthroDeleteHandler; rw [ho]
  · unfold reportListHandler
    exact congrArg (listResponse pg lim (fun r => r.date))
      (filter_sub (reportMatches (reportListQuery ⟨c, Role.professional⟩ tP fP sd ed))
        (fun r => r.professionalId == c)
        (fun r => reportMatches_pro_scope c tP fP sd ed r) repDb).symm
  · intro r hr
    simp only [reportListHandler, listResponse] at hr
    have h2 := mem_of_mem_paginate_sort _ _ _ _ _ hr
    have h3 := (List.mem_filter.mp h2).2
    exact beq_iff_eq.mp (reportMatches_pro_scope c tP fP sd ed r h3)
  · intro hyp
    have hg : repDb.find? (reportGetPred ⟨c, Role.professional⟩ rid) = none := by
      rw [List.find?_eq_none]
      intro x hx hpred
      unfold reportGetPred at hpred
      rw [if_pos rfl, Bool.and_eq_true] at hpred
      exact hyp x hx (beq_iff_eq.mp hpred.1) (beq_iff_eq.mp hpred.2)
    have hs : shareFind repDb c rid = none := by
      unfold shareFind
      rw [List.find?_eq_none]
      intro x hx hpred
      rw [Bool.and_eq_true] at hpred
      exact hyp x hx (beq_iff_eq.mp hpred.1) (beq_iff_eq.mp hpred.2)
    have ho : repDb.find? (reportOwnedPred ⟨c, Role.professional⟩ rid) = none := by
      rw [List.find?_eq_none]
      intro x hx hpred
      unfold reportOwnedPred at hpred
      rw [Bool.and_eq_true] at hpred
      exact hyp x hx (beq_iff_eq.mp hpred.1) (beq_iff_eq.mp hpred.2)
    refine ⟨?_, ?_, ?_⟩
    · unfold reportGetHandler; rw [hg]
    · simp only [shareReportHandler, hs]
    · unfold reportDeleteHandler; rw [ho]
  · have hfe : (userDb.filter (fun u => u.professionalId == some c)).filter
        (patientMatches ⟨c, Role.professional⟩ fc) =
        userDb.filter (patientMatches ⟨c, Role.professional⟩ fc) :=
      filter_sub _ _ (fun u => patientMatches_pro_scope c fc u) userDb
    unfold patientsListHandler
    rw [hfe]
  · intro u hu
    simp only [patientsListHandler] at hu
    obtain ⟨u1, hu1, hequ⟩ := List.mem_map.mp hu
    have h2 : u1 ∈ userDb.filter (patientMatches ⟨c, Role.professional⟩ fc) := by
      unfold paginate at hu1
      exact List.drop_subset _ _ (List.take_subset _ _ hu1)
    have h3 := (List.mem_filter.mp h2).2
    have h4 := beq_iff_eq.mp (patientMatches_pro_scope c fc u1 h3)
    rw [← hequ]
    exact h4
  · intro hyp
    have hp : userDb.find? (patientPred ⟨c, Role.professional⟩ rid) = none := by
      rw [List.find?_eq_none]
      intro x hx hpred
      unfold patientPred at hpred
      simp only [Bool.and_eq_true] at hpred
      exact hyp x hx (beq_iff_eq.mp hpred.1.1) (beq_iff_eq.mp hpred.2)
    constructor
    · unfold patientGetHandler; rw [hp]
    · unfold patientUpdateHandler; rw [hp]
  · intro hyp
    have hp : dbAll.users.find? (patientPred ⟨c, Role.professional⟩ rid) = none := by
      rw [List.find?_eq_none]
      intro x hx hpred
      unfold patientPred at hpred
      simp only [Bool.and_eq_true] at hpred
      exact hyp x hx (beq_iff_eq.mp hpred.1.1) (beq_iff_eq.mp hpred.2)
    unfold deletePatientHandler
    rw [hp]

/-- C1 witness: against stores holding only professional B's records, a
professional A caller receives NotFound from every by-id handler, the
delete/update variants leave the store unchanged, and A's list equals
the list over the store restricted to A's (zero) records. -/
theorem professional_scope_isolation_witness :
    perfGetHandler exProCtx "pb111111111111111111111b" [perfB] = .notFound
    ∧ perfDeleteHandler exProCtx "pb111111111111111111111b" [perfB] = (.notFound, [perfB])
    ∧ anthroGetHandler exProCtx "mb111111111111111111111b" [anthroB] = .notFound
    ∧ reportGetHandler exProCtx "rb111111111111111111111b" [repB] = .notFound
    ∧ shareReportHandler [repB] exProCtx "rb111111111111111111111b" "x" = (.notFound, [repB])
    ∧ patientGetHandler exProCtx "ub111111111111111111111b" [athB] = .notFound
    ∧ perfListHandler exProCtx none none none none 1 10 [perfB] =
        perfListHandler exProCtx none none none none 1 10
          ([perfB].filter (fun r => r.professionalId == "aaaaaaaaaaaaaaaaaaaaaaaa")) := by
  have hperf := professional_scope_isolation "aaaaaaaaaaaaaaaaaaaaaaaa"
    "pb111111111111111111111b" none none none none none none none 1 10
    {} {} {} {} "x" [perfB] [anthroB] [repB] [athB] exDb
  have hanthro := professional_scope_isolation "aaaaaaaaaaaaaaaaaaaaaaaa"
    "mb111111111111111111111b" none none none none none none none 1 10
    {} {} {} {} "x" [perfB] [anthroB] [repB] [athB] exDb
  have hrep := professional_scope_isolation "aaaaaaaaaaaaaaaaaaaaaaaa"
    "rb111111111111111111111b" none none none none none none none 1 10
    {} {} {} {} "x" [perfB] [anthroB] [repB] [athB] exDb
  have husr := professional_scope_isolation "aaaaaaaaaaaaaaaaaaaaaaaa"
    "ub111111111111111111111b" none none none none none none none 1 10
    {} {} {} {} "x" [perfB] [anthroB] [repB] [athB] exDb
  refine ⟨(hperf.2.2.1 (by decide)).1, (hperf.2.2.1 (by decide)).2.2,
    (hanthro.2.2.2.2.2.1 (by decide)).1,
    (hrep.2.2.2.2.2.2.2.2.1 (by decide)).1,
    (hrep.2.2.2.2.2.2.2.2.1 (by decide)).2.1,
    (husr.2.2.2.2.2.2.2.2.2.2.2.1 (by decide)).1,
    hperf.1⟩

/-- C4: the athlete branch of the anthropometric list and single-get
handlers filters on the key athleteId, which is not a path of the
measurement schema (documents carry userId), so a condition on it
matches no stored document: for an athlete caller, the list response
is always empty (whatever the store holds — their own measurements
included) and the single get always answers NotFound. -/
theorem athlete_anthro_scope_bug (a : String) (athP : Option String)
    (sd ed : Option Nat) (pg lim : Nat) (db : List AnthroDoc) (rid : String) :
    (anthroListHandler ⟨a, Role.athlete⟩ athP sd ed pg lim db).data = []
    ∧ (anthroListHandler ⟨a, Role.athlete⟩ athP sd ed pg lim db).total = 0
    ∧ anthroGetHandler ⟨a, Role.athlete⟩ rid db = .notFound
    ∧ anthroGetHandler ⟨a, Role.athlete⟩ "ma111111111111111111111a" [anthroA] = .notFound := by
  have hm : ∀ m : AnthroDoc,
      ¬ (anthroListMatches ⟨a, Role.athlete⟩ athP sd ed m = true) := by
    intro m hmm
    unfold anthroListMatches at hmm
    rw [Bool.and_eq_true] at hmm
    have h1 := hmm.1
    unfold anthroListConds at h1
    rw [if_neg (fun hh => Role.noConfusion hh)] at h1
    unfold anthroCondsMatch at h1
    simp only [List.all_cons, List.all_nil, Bool.and_eq_true] at h1
    have h2 := h1.1
    rw [fieldVal_athleteId] at h2
    cases h2
  have hfe : db.filter (anthroListMatches ⟨a, Role.athlete⟩ athP sd ed) = [] := by
    rw [List.filter_eq_nil_iff]
    exact fun x _ => hm x
  have hget : ∀ (l : List AnthroDoc) (rid2 : String),
      anthroGetHandler ⟨a, Role.athlete⟩ rid2 l = .notFound := by
    intro l rid2
    have hfind : l.find?
        (anthroCondsMatch (anthroGetConds ⟨a, Role.athlete⟩ rid2)) = none := by
      rw [List.find?_eq_none]
      intro x hx hpred
      unfold anthroGetConds at hpred
      rw [if_neg (fun hh => Role.noConfusion hh)] at hpred
      unfold anthroCondsMatch at hpred
      simp only [List.all_cons, List.all_nil, Bool.and_eq_true] at hpred
      obtain ⟨-, h2, -⟩ := hpred
      rw [fieldVal_athleteId] at h2
      cases h2
    unfold anthroGetHandler
    rw [hfind]
  refine ⟨?_, ?_, hget db rid, hget [anthroA] "ma111111111111111111111a"⟩
  · simp [anthroListHandler, listResponse, hfe, paginate, sortDateDesc]
  · simp [anthroListHandler, listResponse, hfe]

end Backend
